import Mathlib

/-!
Shallow embedding of the deterministic match-simulation core of the
2d-woflow-fighters repository (source file `src/engine/GameEngine.ts`,
types from `src/types/game.ts`, constant tables from `src/data/gameData.ts`).

Numbers: the source uses JavaScript numbers; positions, velocities,
health, meters, hit-stun and time scales are modelled as `ℚ` (the claims
under scrutiny are about exact arithmetic relations, not float rounding).
Frame counters (`stateFrame`, attack `startup`/`active`/`recovery`) are
only ever incremented by 1 or assigned integer values, so they are `ℕ`.

Effects: `Math.random()` is modelled as drawing from an explicit stream
(`Rng`), one draw per source call, in source order. `Date.now()` is
modelled as an explicit `now : ℚ` argument, sampled once per tick.
`Math.cos` / `Math.sin` / `Math.PI` (used only for cosmetic particle
kinematics) are modelled as an explicit record of functions (`JsMath`)
so the development stays executable without a transcendental library.

Entity id strings such as `spark-${Date.now()}-${i}` are modelled by the
inductive `EntityId`, which keeps exactly the data the template string
interpolates (the constructors are injective, as the distinct string
prefixes are).
-/

/-- Stream of `Math.random()` results: an infinite sequence and a cursor. -/
structure Rng where
  seq : ℕ → ℚ
  idx : ℕ

/-- One `Math.random()` call: yield the next stream element. -/
def Rng.next (r : Rng) : ℚ × Rng :=
  (r.seq r.idx, { r with idx := r.idx + 1 })

/-- Host math functions used by the engine (only in particle cosmetics). -/
structure JsMath where
  cos : ℚ → ℚ
  sin : ℚ → ℚ
  pi : ℚ

/-- Model of the template-string entity ids generated by the engine. -/
inductive EntityId where
  | spark (now : ℚ) (i : ℕ)
  | star (now : ℚ) (i : ℕ)
  | dust (now : ℚ) (i : ℕ)
  | popup (now : ℚ) (r : ℚ)
  | proj (now : ℚ) (r : ℚ)
deriving DecidableEq, Repr

/-- `Position`/`Velocity` from `src/types/game.ts` (both are `{x, y}`). -/
structure Vec2 where
  x : ℚ
  y : ℚ
deriving DecidableEq, Repr

structure HitBox where
  x : ℚ
  y : ℚ
  width : ℚ
  height : ℚ
deriving DecidableEq, Repr

inductive AttackType where
  | punch
  | kick
  | special
deriving DecidableEq, Repr

/-- `Attack` from `src/types/game.ts`. -/
structure Attack where
  name : String
  damage : ℚ
  range : ℚ
  startup : ℕ
  active : ℕ
  recovery : ℕ
  knockback : ℚ
  type : AttackType
  sound : String
deriving DecidableEq, Repr

inductive Facing where
  | left
  | right
deriving DecidableEq, Repr

inductive FighterState where
  | idle
  | walking
  | jumping
  | attacking
  | hit
  | blocking
  | knockdown
  | victory
  | defeat
deriving DecidableEq, Repr

/-- `Fighter` from `src/types/game.ts`. -/
structure Fighter where
  id : String
  name : String
  color : String
  secondaryColor : String
  faceImage : String
  position : Vec2
  velocity : Vec2
  health : ℚ
  maxHealth : ℚ
  facing : Facing
  state : FighterState
  stateFrame : ℕ
  currentAttack : Option Attack
  isBlocking : Bool
  isGrounded : Bool
  hitStun : ℚ
  comboCount : ℕ
  specialMeter : ℚ
deriving DecidableEq, Repr

inductive ParticleType where
  | spark
  | star
  | dust
  | impact
deriving DecidableEq, Repr

structure Particle where
  id : EntityId
  x : ℚ
  y : ℚ
  vx : ℚ
  vy : ℚ
  life : ℚ
  maxLife : ℚ
  size : ℚ
  color : String
  type : ParticleType
  rotation : ℚ
  rotationSpeed : ℚ
deriving DecidableEq, Repr

inductive Side where
  | player
  | opponent
deriving DecidableEq, Repr

structure Projectile where
  id : EntityId
  x : ℚ
  y : ℚ
  vx : ℚ
  owner : Side
  damage : ℚ
  text : String
  color : String
  life : ℚ
deriving DecidableEq, Repr

inductive PopupType where
  | hit
  | combo
  | ko
deriving DecidableEq, Repr

structure TextPopup where
  id : EntityId
  text : String
  x : ℚ
  y : ℚ
  life : ℚ
  maxLife : ℚ
  scale : ℚ
  color : String
  type : PopupType
deriving DecidableEq, Repr

structure CameraState where
  x : ℚ
  y : ℚ
  zoom : ℚ
  shake : ℚ
  targetZoom : ℚ
deriving DecidableEq, Repr

inductive GamePhase where
  | intro
  | fighting
  | ko
  | victory
deriving DecidableEq, Repr

structure GameState where
  player : Fighter
  opponent : Fighter
  particles : List Particle
  projectiles : List Projectile
  textPopups : List TextPopup
  camera : CameraState
  gamePhase : GamePhase
  winner : Option Side
  slowMo : ℚ
  roundTime : ℚ
deriving DecidableEq, Repr

inductive SoundEvent where
  | punch
  | kick
  | special
  | block
  | whiff
  | ko
  | victory
deriving DecidableEq, Repr

inductive GameMode where
  | training
  | vsCpu
  | online
  | tournament
deriving DecidableEq, Repr

/-- Per-tick input flags (`InputState` in `GameEngine.ts`). -/
structure InputState where
  left : Bool
  right : Bool
  up : Bool
  down : Bool
  punch : Bool
  kick : Bool
  special : Bool
  block : Bool
deriving DecidableEq, Repr

/-- The `{punch, kick, special}` attack set handed to the engine. -/
structure AttackSet where
  punch : Attack
  kick : Attack
  special : Attack
deriving DecidableEq, Repr

-- Constants from `GameEngine.ts`.
def GRAVITY : ℚ := 0.7
def GROUND_Y : ℚ := 520
def ARENA_WIDTH : ℚ := 1200
def ARENA_PADDING : ℚ := 50
def FIGHTER_WIDTH : ℚ := 80
def FIGHTER_HEIGHT : ℚ := 140
def JUMP_FORCE : ℚ := -16
def MOVE_SPEED : ℚ := 2.2
def AIR_CONTROL : ℚ := 0.25
def FRICTION : ℚ := 0.9
def SPECIAL_METER_COST : ℚ := 50
def METER_GAIN_ON_HIT : ℚ := 15
def METER_GAIN_ON_DAMAGE : ℚ := 10
def PROJECTILE_SPEED : ℚ := 5
def PROJECTILE_SIZE : ℚ := 50
def PROJECTILE_LIFE : ℚ := 180

-- Constant tables from `src/data/gameData.ts`.
def HIT_SOUNDS : List String :=
  ["WHAM!", "POW!", "BAM!", "CRACK!", "BOOM!", "SMASH!", "THWACK!"]

def COMBO_TEXTS : List String :=
  ["NICE!", "GREAT!", "AWESOME!", "AMAZING!", "INCREDIBLE!", "LEGENDARY!"]

def getFighterHitBox (fighter : Fighter) : HitBox :=
  { x := fighter.position.x - FIGHTER_WIDTH / 2
    y := fighter.position.y - FIGHTER_HEIGHT
    width := FIGHTER_WIDTH
    height := FIGHTER_HEIGHT }

def getAttackHitBox (fighter : Fighter) (attack : Attack) : HitBox :=
  let attackWidth := attack.range
  let attackHeight : ℚ := if attack.type = AttackType.kick then 50 else 40
  let attackY :=
    if attack.type = AttackType.kick then fighter.position.y - FIGHTER_HEIGHT * 0.4
    else fighter.position.y - FIGHTER_HEIGHT * 0.7
  { x :=
      if fighter.facing = Facing.right then fighter.position.x + 20
      else fighter.position.x - 20 - attackWidth
    y := attackY
    width := attackWidth
    height := attackHeight }

def boxesIntersect (a b : HitBox) : Bool :=
  decide (a.x < b.x + b.width) && decide (a.x + a.width > b.x) &&
    decide (a.y < b.y + b.height) && decide (a.y + a.height > b.y)

/-- One spark of the impact burst in `createHitParticles` (six
`Math.random()` draws per spark, in source order). -/
def mkSparkParticle (jm : JsMath) (now x y : ℚ) (color : String) (i : ℕ)
    (rng : Rng) : Particle × Rng :=
  let (r1, rng) := rng.next
  let angle := jm.pi * 2 * (i : ℚ) / 12 + r1 * 0.3
  let (r2, rng) := rng.next
  let speed := 8 + r2 * 6
  let (r3, rng) := rng.next
  let (r4, rng) := rng.next
  let (r5, rng) := rng.next
  let (r6, rng) := rng.next
  ({ id := EntityId.spark now i
     x := x
     y := y
     vx := jm.cos angle * speed
     vy := jm.sin angle * speed
     life := 20 + r3 * 10
     maxLife := 30
     size := 6 + r4 * 8
     color := color
     type := ParticleType.spark
     rotation := r5 * (jm.pi * 2)
     rotationSpeed := (r6 - 0.5) * 0.4 }, rng)

/-- One star of `createHitParticles` (six draws per star, source order). -/
def mkStarParticle (jm : JsMath) (now x y : ℚ) (i : ℕ)
    (rng : Rng) : Particle × Rng :=
  let (r1, rng) := rng.next
  let angle := r1 * (jm.pi * 2)
  let (r2, rng) := rng.next
  let speed := 3 + r2 * 4
  let (r3, rng) := rng.next
  let (r4, rng) := rng.next
  let (r5, rng) := rng.next
  let (r6, rng) := rng.next
  ({ id := EntityId.star now i
     x := x
     y := y
     vx := jm.cos angle * speed
     vy := jm.sin angle * speed - 3
     life := 40 + r3 * 20
     maxLife := 60
     size := 15 + r4 * 10
     color := "#FFFF00"
     type := ParticleType.star
     rotation := r5 * (jm.pi * 2)
     rotationSpeed := (r6 - 0.5) * 0.2 }, rng)

def createHitParticles (jm : JsMath) (now x y : ℚ) (color : String)
    (rng : Rng) : List Particle × Rng :=
  let sparks := (List.range 12).foldl
    (fun (acc : List Particle × Rng) i =>
      let (p, r) := mkSparkParticle jm now x y color i acc.2
      (acc.1 ++ [p], r))
    ([], rng)
  let stars := (List.range 5).foldl
    (fun (acc : List Particle × Rng) i =>
      let (p, r) := mkStarParticle jm now x y i acc.2
      (acc.1 ++ [p], r))
    (sparks.1, sparks.2)
  stars

/-- One dust particle of `createWhiffParticles` (two draws, source order). -/
def mkDustParticle (jm : JsMath) (now x y : ℚ) (i : ℕ)
    (rng : Rng) : Particle × Rng :=
  let (r1, rng) := rng.next
  let angle := r1 * (jm.pi * 2)
  let (r2, rng) := rng.next
  ({ id := EntityId.dust now i
     x := x
     y := y
     vx := jm.cos angle * 2
     vy := jm.sin angle * 2 - 1
     life := 15
     maxLife := 15
     size := 8 + r2 * 5
     color := "rgba(200, 200, 200, 0.5)"
     type := ParticleType.dust
     rotation := 0
     rotationSpeed := 0 }, rng)

def createWhiffParticles (jm : JsMath) (now x y : ℚ)
    (rng : Rng) : List Particle × Rng :=
  (List.range 5).foldl
    (fun (acc : List Particle × Rng) i =>
      let (p, r) := mkDustParticle jm now x y i acc.2
      (acc.1 ++ [p], r))
    ([], rng)

def createHitPopup (now : ℚ) (text : String) (x y : ℚ) (ptype : PopupType)
    (rng : Rng) : TextPopup × Rng :=
  let (r, rng) := rng.next
  ({ id := EntityId.popup now r
     text := text
     x := x
     y := y
     life := if ptype = PopupType.ko then 120 else 45
     maxLife := if ptype = PopupType.ko then 120 else 45
     scale := if ptype = PopupType.ko then 2 else 1
     color :=
       if ptype = PopupType.ko then "#FF0000"
       else if ptype = PopupType.combo then "#FFD700" else "#FFFFFF"
     type := ptype }, rng)

def createProjectile (now : ℚ) (fighter : Fighter) (attack : Attack)
    (owner : Side) (text : String) (color : String)
    (rng : Rng) : Projectile × Rng :=
  let direction : ℚ := if fighter.facing = Facing.right then 1 else -1
  let (r, rng) := rng.next
  ({ id := EntityId.proj now r
     x := fighter.position.x + direction * 50
     y := fighter.position.y - FIGHTER_HEIGHT * 0.6
     vx := PROJECTILE_SPEED * direction
     owner := owner
     damage := attack.damage
     text := text
     color := color
     life := PROJECTILE_LIFE }, rng)

def updateProjectiles (projectiles : List Projectile) : List Projectile :=
  (projectiles.map (fun p => { p with x := p.x + p.vx, life := p.life - 1 })).filter
    (fun p => decide (p.life > 0) && decide (p.x > -100) &&
      decide (p.x < ARENA_WIDTH + 100))

def getProjectileHitBox (projectile : Projectile) : HitBox :=
  { x := projectile.x - PROJECTILE_SIZE / 2
    y := projectile.y - PROJECTILE_SIZE / 2
    width := PROJECTILE_SIZE
    height := PROJECTILE_SIZE }

def getTotalAttackFrames : Option Attack → ℕ
  | none => 0
  | some attack => attack.startup + attack.active + attack.recovery

def isAttackActive (fighter : Fighter) : Bool :=
  match fighter.currentAttack with
  | none => false
  | some attack =>
    if fighter.state ≠ FighterState.attacking then false
    else if attack.type = AttackType.special then false
    else decide (attack.startup ≤ fighter.stateFrame) &&
      decide (fighter.stateFrame < attack.startup + attack.active)

structure FighterUpdateResult where
  fighter : Fighter
  spawnedSpecial : Bool
deriving DecidableEq, Repr

/-- The hit-stun block at the top of `updateFighter`: decrement by the
time scale; on crossing to ≤ 0, clamp to 0, force `idle`, reset combo. -/
def fighterHitstunStep (fighter : Fighter) (timeScale : ℚ) : Fighter :=
  if fighter.hitStun > 0 then
    let hs := fighter.hitStun - timeScale
    if hs ≤ 0 then
      { fighter with
          hitStun := 0, state := FighterState.idle, comboCount := 0 }
    else { fighter with hitStun := hs }
  else fighter

/-- `canAct` condition of `updateFighter`. -/
def fighterCanAct (f : Fighter) : Bool :=
  decide (f.hitStun ≤ 0) &&
    (decide (f.state ≠ FighterState.attacking) ||
      decide (f.stateFrame > getTotalAttackFrames f.currentAttack))

/-- "Reset attack if finished" block of `updateFighter`. -/
def fighterResetAttack (f : Fighter) : Fighter :=
  if f.state = FighterState.attacking ∧
      f.stateFrame > getTotalAttackFrames f.currentAttack then
    { f with
        state := FighterState.idle, currentAttack := none, stateFrame := 0 }
  else f

/-- "Handle input" chain of `updateFighter`: special → punch → kick →
jump, first match wins; the Bool result is the spawn-projectile signal. -/
def fighterInputAttack (f : Fighter) (input : InputState)
    (attacks : AttackSet) (timeScale : ℚ) : Fighter × Bool :=
  if input.special = true ∧ f.isGrounded = true ∧
      f.specialMeter ≥ SPECIAL_METER_COST then
    ({ f with
         state := FighterState.attacking
         currentAttack := some attacks.special
         stateFrame := 0
         velocity := { f.velocity with x := f.velocity.x * 0.2 }
         specialMeter := f.specialMeter - SPECIAL_METER_COST }, true)
  else if input.punch = true ∧ f.isGrounded = true then
    ({ f with
         state := FighterState.attacking
         currentAttack := some attacks.punch
         stateFrame := 0
         velocity := { f.velocity with x := f.velocity.x * 0.3 } }, false)
  else if input.kick = true ∧ f.isGrounded = true then
    ({ f with
         state := FighterState.attacking
         currentAttack := some attacks.kick
         stateFrame := 0
         velocity := { f.velocity with x := f.velocity.x * 0.3 } }, false)
  else if input.up = true ∧ f.isGrounded = true then
    ({ f with
         velocity := { f.velocity with y := JUMP_FORCE * timeScale }
         isGrounded := false
         state := FighterState.jumping }, false)
  else (f, false)

/-- "Horizontal movement (only if not attacking)" block of
`updateFighter`. `moveMultiplier` and `canMove` are computed once, from
the fighter as it stands after the input chain, exactly as in the
source. -/
def fighterMove (f : Fighter) (input : InputState) (timeScale : ℚ) :
    Fighter :=
  let moveMultiplier : ℚ := if f.isGrounded then 1 else AIR_CONTROL
  let canMove := f.state ≠ FighterState.attacking
  let f1 :=
    if input.left = true ∧ canMove then
      let g := { f with
        velocity := { f.velocity with
          x := f.velocity.x - MOVE_SPEED * moveMultiplier * timeScale } }
      if g.isGrounded then { g with state := FighterState.walking } else g
    else f
  if input.right = true ∧ canMove then
    let g := { f1 with
      velocity := { f1.velocity with
        x := f1.velocity.x + MOVE_SPEED * moveMultiplier * timeScale } }
    if g.isGrounded then { g with state := FighterState.walking } else g
  else f1

/-- "Blocking (dedicated block key)" block of `updateFighter`. -/
def fighterBlock (f : Fighter) (input : InputState) : Fighter :=
  let blocking := input.block = true ∧ f.isGrounded = true ∧
    f.state ≠ FighterState.attacking
  let f := { f with isBlocking := decide blocking }
  if blocking then
    { f with
        state := FighterState.blocking
        velocity := { f.velocity with x := f.velocity.x * 0.5 } }
  else f

/-- "Idle state" fallback block of `updateFighter`. -/
def fighterIdleFallback (f : Fighter) (input : InputState) : Fighter :=
  if input.left = false ∧ input.right = false ∧ f.isGrounded = true ∧
      f.state = FighterState.walking then
    { f with state := FighterState.idle }
  else f

/-- Horizontal movement, blocking and idle-fallback blocks of
`updateFighter`, in source order. -/
def fighterMoveBlock (f : Fighter) (input : InputState)
    (timeScale : ℚ) : Fighter :=
  fighterIdleFallback (fighterBlock (fighterMove f input timeScale) input) input

/-- The `if (canAct)` body of `updateFighter`. -/
def fighterActStep (f : Fighter) (input : InputState) (attacks : AttackSet)
    (timeScale : ℚ) : Fighter × Bool :=
  let f := fighterResetAttack f
  let handled := fighterInputAttack f input attacks timeScale
  (fighterMoveBlock handled.1 input timeScale, handled.2)

/-- Physics block of `updateFighter`: friction, gravity, integration,
ground collision, arena bounds. -/
def fighterPhysicsStep (f : Fighter) (timeScale : ℚ) : Fighter :=
  let f := { f with
    velocity := { x := f.velocity.x * FRICTION
                  y := f.velocity.y + GRAVITY * timeScale } }
  let f := { f with
    position := { x := f.position.x + f.velocity.x * timeScale
                  y := f.position.y + f.velocity.y * timeScale } }
  -- Ground collision
  let f :=
    if f.position.y ≥ GROUND_Y then
      let f := { f with
        position := { f.position with y := GROUND_Y }
        velocity := { f.velocity with y := 0 }
        isGrounded := true }
      if f.state = FighterState.jumping then
        { f with state := FighterState.idle }
      else f
    else { f with isGrounded := false }
  -- Arena bounds
  { f with
    position := { f.position with
      x := max ARENA_PADDING (min (ARENA_WIDTH - ARENA_PADDING) f.position.x) } }

/-- `updateFighter` from `GameEngine.ts`: hit-stun handling, input
interpretation, physics integration for one fighter and one tick,
composed of its source-ordered blocks. -/
def updateFighter (fighter : Fighter) (input : InputState)
    (attacks : AttackSet) (timeScale : ℚ)
    (gamePhase : GamePhase) : FighterUpdateResult :=
  if gamePhase = GamePhase.intro ∨ gamePhase = GamePhase.victory ∨
      gamePhase = GamePhase.ko then
    -- Just animate idle or victory
    { fighter := { fighter with stateFrame := fighter.stateFrame + 1 }
      spawnedSpecial := false }
  else
    let f := fighterHitstunStep fighter timeScale
    -- Can only act if not in hitstun or attacking
    let acted :=
      if fighterCanAct f then fighterActStep f input attacks timeScale
      else (f, false)
    let f := fighterPhysicsStep acted.1 timeScale
    { fighter := { f with stateFrame := f.stateFrame + 1 }
      spawnedSpecial := acted.2 }


structure CombatResult where
  state : GameState
  newParticles : List Particle
  newPopups : List TextPopup
  soundEvents : List SoundEvent
deriving DecidableEq, Repr

/-- Accumulator for the projectile-hit loop in `checkProjectileHits`. -/
structure ProjHitAcc where
  state : GameState
  newParticles : List Particle
  newPopups : List TextPopup
  soundEvents : List SoundEvent
  toRemove : List EntityId
  rng : Rng

/-- Body of the `for (const projectile of newState.projectiles)` loop in
`checkProjectileHits`. -/
def projectileHitStep (jm : JsMath) (now : ℚ) (acc : ProjHitAcc)
    (projectile : Projectile) : ProjHitAcc :=
  let projectileBox := getProjectileHitBox projectile
  match projectile.owner with
  | Side.player =>
    let targetBox := getFighterHitBox acc.state.opponent
    if boxesIntersect projectileBox targetBox then
      let toRemove := acc.toRemove ++ [projectile.id]
      let hitX := projectile.x
      let hitY := projectile.y
      if acc.state.opponent.isBlocking then
        -- Blocked
        let opponent := { acc.state.opponent with
          health := acc.state.opponent.health - projectile.damage * 0.2
          velocity := { acc.state.opponent.velocity with
            x := (if projectile.vx > 0 then (1 : ℚ) else -1) * 5 }
          hitStun := 8 }
        let (ps, rng) := createWhiffParticles jm now hitX hitY acc.rng
        let (pp, rng) := createHitPopup now "BLOCK!" hitX (hitY - 50)
          PopupType.hit rng
        { state := { acc.state with opponent := opponent }
          newParticles := acc.newParticles ++ ps
          newPopups := acc.newPopups ++ [pp]
          soundEvents := acc.soundEvents ++ [SoundEvent.block]
          toRemove := toRemove
          rng := rng }
      else
        -- Hit!
        let opponent := { acc.state.opponent with
          health := acc.state.opponent.health - projectile.damage
          velocity := { x := (if projectile.vx > 0 then (1 : ℚ) else -1) * 12
                        y := -5 }
          hitStun := 25
          state := FighterState.hit
          comboCount := acc.state.opponent.comboCount + 1 }
        let player := { acc.state.player with
          specialMeter :=
            min 100 (acc.state.player.specialMeter + METER_GAIN_ON_HIT) }
        let opponent := { opponent with
          specialMeter := min 100 (opponent.specialMeter + METER_GAIN_ON_DAMAGE) }
        let (ps, rng) := createHitParticles jm now hitX hitY projectile.color acc.rng
        let (pp, rng) := createHitPopup now (projectile.text ++ "!") hitX
          (hitY - 60) PopupType.hit rng
        let comboStep : List TextPopup × Rng :=
          if opponent.comboCount > 1 then
            let comboText := COMBO_TEXTS.getD
              (min (opponent.comboCount - 2) (COMBO_TEXTS.length - 1)) ""
            let (cp, rng) := createHitPopup now
              (toString opponent.comboCount ++ " HIT " ++ comboText) hitX
              (hitY - 120) PopupType.combo rng
            ([cp], rng)
          else ([], rng)
        let camera := { acc.state.camera with
          shake := min 25 (acc.state.camera.shake + projectile.damage * 0.7) }
        { state := { acc.state with
            opponent := opponent, player := player, camera := camera }
          newParticles := acc.newParticles ++ ps
          newPopups := acc.newPopups ++ [pp] ++ comboStep.1
          soundEvents := acc.soundEvents ++ [SoundEvent.special]
          toRemove := toRemove
          rng := comboStep.2 }
    else acc
  | Side.opponent =>
    let targetBox := getFighterHitBox acc.state.player
    if boxesIntersect projectileBox targetBox then
      let toRemove := acc.toRemove ++ [projectile.id]
      let hitX := projectile.x
      let hitY := projectile.y
      if acc.state.player.isBlocking then
        -- Blocked
        let player := { acc.state.player with
          health := acc.state.player.health - projectile.damage * 0.2
          velocity := { acc.state.player.velocity with
            x := (if projectile.vx > 0 then (1 : ℚ) else -1) * 5 }
          hitStun := 8 }
        let (ps, rng) := createWhiffParticles jm now hitX hitY acc.rng
        let (pp, rng) := createHitPopup now "BLOCK!" hitX (hitY - 50)
          PopupType.hit rng
        { state := { acc.state with player := player }
          newParticles := acc.newParticles ++ ps
          newPopups := acc.newPopups ++ [pp]
          soundEvents := acc.soundEvents ++ [SoundEvent.block]
          toRemove := toRemove
          rng := rng }
      else
        -- Hit!
        let player := { acc.state.player with
          health := acc.state.player.health - projectile.damage
          velocity := { x := (if projectile.vx > 0 then (1 : ℚ) else -1) * 12
                        y := -5 }
          hitStun := 25
          state := FighterState.hit
          comboCount := acc.state.player.comboCount + 1 }
        let opponent := { acc.state.opponent with
          specialMeter :=
            min 100 (acc.state.opponent.specialMeter + METER_GAIN_ON_HIT) }
        let player := { player with
          specialMeter := min 100 (player.specialMeter + METER_GAIN_ON_DAMAGE) }
        let (ps, rng) := createHitParticles jm now hitX hitY projectile.color acc.rng
        let (pp, rng) := createHitPopup now (projectile.text ++ "!") hitX
          (hitY - 60) PopupType.hit rng
        let comboStep : List TextPopup × Rng :=
          if player.comboCount > 1 then
            let comboText := COMBO_TEXTS.getD
              (min (player.comboCount - 2) (COMBO_TEXTS.length - 1)) ""
            let (cp, rng) := createHitPopup now
              (toString player.comboCount ++ " HIT " ++ comboText) hitX
              (hitY - 120) PopupType.combo rng
            ([cp], rng)
          else ([], rng)
        let camera := { acc.state.camera with
          shake := min 25 (acc.state.camera.shake + projectile.damage * 0.7) }
        { state := { acc.state with
            player := player, opponent := opponent, camera := camera }
          newParticles := acc.newParticles ++ ps
          newPopups := acc.newPopups ++ [pp] ++ comboStep.1
          soundEvents := acc.soundEvents ++ [SoundEvent.special]
          toRemove := toRemove
          rng := comboStep.2 }
    else acc

def checkProjectileHits (jm : JsMath) (now : ℚ) (state : GameState)
    (rng : Rng) : CombatResult × Rng :=
  let acc := state.projectiles.foldl (projectileHitStep jm now)
    { state := state, newParticles := [], newPopups := [],
      soundEvents := [], toRemove := [], rng := rng }
  -- Remove hit projectiles
  let finalState := { acc.state with
    projectiles := acc.state.projectiles.filter
      (fun p => decide (p.id ∉ acc.toRemove)) }
  ({ state := finalState, newParticles := acc.newParticles,
     newPopups := acc.newPopups, soundEvents := acc.soundEvents }, acc.rng)

/-- Accumulator threaded through the four blocks of `checkHits`. -/
structure MeleeAcc where
  state : GameState
  newParticles : List Particle
  newPopups : List TextPopup
  soundEvents : List SoundEvent
  rng : Rng

/-- First block of `checkHits`: the player's attack against the opponent. -/
def meleePlayerBlock (jm : JsMath) (now : ℚ) (acc : MeleeAcc) : MeleeAcc :=
  let s := acc.state
  if isAttackActive s.player && decide (s.opponent.hitStun ≤ 0) then
    match s.player.currentAttack with
    | none => acc  -- unreachable: isAttackActive requires a current attack
    | some attack =>
      let attackBox := getAttackHitBox s.player attack
      let targetBox := getFighterHitBox s.opponent
      if boxesIntersect attackBox targetBox then
        let hitX := (attackBox.x + targetBox.x + targetBox.width) / 2
        let hitY := attackBox.y + attackBox.height / 2
        let branched : MeleeAcc :=
          if s.opponent.isBlocking then
            -- Blocked - reduced damage and effects
            let opponent := { s.opponent with
              health := s.opponent.health - attack.damage * 0.2
              velocity := { s.opponent.velocity with
                x := (if s.player.facing = Facing.right then (1 : ℚ) else -1) *
                  attack.knockback * 0.3 }
              hitStun := 8 }
            let (ps, rng) := createWhiffParticles jm now hitX hitY acc.rng
            let (pp, rng) := createHitPopup now "BLOCK!" hitX (hitY - 50)
              PopupType.hit rng
            { state := { s with opponent := opponent }
              newParticles := acc.newParticles ++ ps
              newPopups := acc.newPopups ++ [pp]
              soundEvents := acc.soundEvents ++ [SoundEvent.block]
              rng := rng }
          else
            -- Hit!
            let dir : ℚ := if s.player.facing = Facing.right then 1 else -1
            let opponent := { s.opponent with
              health := s.opponent.health - attack.damage
              velocity := { x := dir * attack.knockback
                            y := -attack.knockback * 0.3 }
              hitStun := 20
              state := FighterState.hit
              comboCount := s.opponent.comboCount + 1 }
            let player := { s.player with
              specialMeter := min 100 (s.player.specialMeter + METER_GAIN_ON_HIT) }
            let opponent := { opponent with
              specialMeter :=
                min 100 (opponent.specialMeter + METER_GAIN_ON_DAMAGE) }
            let (ps, rng) := createHitParticles jm now hitX hitY s.player.color acc.rng
            let (r, rng) := rng.next
            let hitSound := HIT_SOUNDS.getD
              (Int.toNat ⌊r * (HIT_SOUNDS.length : ℚ)⌋) ""
            let (pp, rng) := createHitPopup now hitSound hitX (hitY - 60)
              PopupType.hit rng
            let comboStep : List TextPopup × Rng :=
              if opponent.comboCount > 1 then
                let comboText := COMBO_TEXTS.getD
                  (min (opponent.comboCount - 2) (COMBO_TEXTS.length - 1)) ""
                let (cp, rng) := createHitPopup now
                  (toString opponent.comboCount ++ " HIT " ++ comboText) hitX
                  (hitY - 120) PopupType.combo rng
                ([cp], rng)
              else ([], rng)
            -- Camera shake
            let camera := { s.camera with
              shake := min 20 (s.camera.shake + attack.damage * 0.5) }
            -- Sound event based on attack type
            let sound :=
              if attack.type = AttackType.special then SoundEvent.special
              else if attack.type = AttackType.kick then SoundEvent.kick
              else SoundEvent.punch
            { state := { s with
                opponent := opponent, player := player, camera := camera }
              newParticles := acc.newParticles ++ ps
              newPopups := acc.newPopups ++ [pp] ++ comboStep.1
              soundEvents := acc.soundEvents ++ [sound]
              rng := comboStep.2 }
        -- Clear attack so it does not hit again
        { branched with state := { branched.state with
            player := { branched.state.player with
              stateFrame := attack.startup + attack.active } } }
      else acc
  else acc

/-- Second block of `checkHits`: the opponent's attack against the player. -/
def meleeOpponentBlock (jm : JsMath) (now : ℚ) (acc : MeleeAcc) : MeleeAcc :=
  let s := acc.state
  if isAttackActive s.opponent && decide (s.player.hitStun ≤ 0) then
    match s.opponent.currentAttack with
    | none => acc
    | some attack =>
      let attackBox := getAttackHitBox s.opponent attack
      let targetBox := getFighterHitBox s.player
      if boxesIntersect attackBox targetBox then
        let hitX := (attackBox.x + targetBox.x + targetBox.width) / 2
        let hitY := attackBox.y + attackBox.height / 2
        let branched : MeleeAcc :=
          if s.player.isBlocking then
            -- Blocked
            let player := { s.player with
              health := s.player.health - attack.damage * 0.2
              velocity := { s.player.velocity with
                x := (if s.opponent.facing = Facing.right then (1 : ℚ) else -1) *
                  attack.knockback * 0.3 }
              hitStun := 8 }
            let (ps, rng) := createWhiffParticles jm now hitX hitY acc.rng
            let (pp, rng) := createHitPopup now "BLOCK!" hitX (hitY - 50)
              PopupType.hit rng
            { state := { s with player := player }
              newParticles := acc.newParticles ++ ps
              newPopups := acc.newPopups ++ [pp]
              soundEvents := acc.soundEvents ++ [SoundEvent.block]
              rng := rng }
          else
            -- Hit!
            let dir : ℚ := if s.opponent.facing = Facing.right then 1 else -1
            let player := { s.player with
              health := s.player.health - attack.damage
              velocity := { x := dir * attack.knockback
                            y := -attack.knockback * 0.3 }
              hitStun := 20
              state := FighterState.hit
              comboCount := s.player.comboCount + 1 }
            let opponent := { s.opponent with
              specialMeter :=
                min 100 (s.opponent.specialMeter + METER_GAIN_ON_HIT) }
            let player := { player with
              specialMeter := min 100 (player.specialMeter + METER_GAIN_ON_DAMAGE) }
            let (ps, rng) := createHitParticles jm now hitX hitY s.opponent.color acc.rng
            let (r, rng) := rng.next
            let hitSound := HIT_SOUNDS.getD
              (Int.toNat ⌊r * (HIT_SOUNDS.length : ℚ)⌋) ""
            let (pp, rng) := createHitPopup now hitSound hitX (hitY - 60)
              PopupType.hit rng
            let comboStep : List TextPopup × Rng :=
              if player.comboCount > 1 then
                let comboText := COMBO_TEXTS.getD
                  (min (player.comboCount - 2) (COMBO_TEXTS.length - 1)) ""
                let (cp, rng) := createHitPopup now
                  (toString player.comboCount ++ " HIT " ++ comboText) hitX
                  (hitY - 120) PopupType.combo rng
                ([cp], rng)
              else ([], rng)
            let camera := { s.camera with
              shake := min 20 (s.camera.shake + attack.damage * 0.5) }
            let sound :=
              if attack.type = AttackType.special then SoundEvent.special
              else if attack.type = AttackType.kick then SoundEvent.kick
              else SoundEvent.punch
            { state := { s with
                player := player, opponent := opponent, camera := camera }
              newParticles := acc.newParticles ++ ps
              newPopups := acc.newPopups ++ [pp] ++ comboStep.1
              soundEvents := acc.soundEvents ++ [sound]
              rng := comboStep.2 }
        { branched with state := { branched.state with
            opponent := { branched.state.opponent with
              stateFrame := attack.startup + attack.active } } }
      else acc
  else acc

/-- Third block of `checkHits`: whiff detection for the player's attack. -/
def whiffPlayerBlock (jm : JsMath) (now : ℚ) (acc : MeleeAcc) : MeleeAcc :=
  let s := acc.state
  match s.player.currentAttack with
  | none => acc
  | some attack =>
    if s.player.state = FighterState.attacking then
      if s.player.stateFrame = attack.startup + attack.active then
        let attackBox := getAttackHitBox s.player attack
        let targetBox := getFighterHitBox s.opponent
        if boxesIntersect attackBox targetBox then acc
        else
          let (ps, rng) := createWhiffParticles jm now
            (attackBox.x + attackBox.width / 2)
            (attackBox.y + attackBox.height / 2) acc.rng
          { acc with
              newParticles := acc.newParticles ++ ps
              soundEvents := acc.soundEvents ++ [SoundEvent.whiff]
              rng := rng }
      else acc
    else acc

/-- Fourth block of `checkHits`: whiff detection for the opponent's attack. -/
def whiffOpponentBlock (jm : JsMath) (now : ℚ) (acc : MeleeAcc) : MeleeAcc :=
  let s := acc.state
  match s.opponent.currentAttack with
  | none => acc
  | some attack =>
    if s.opponent.state = FighterState.attacking then
      if s.opponent.stateFrame = attack.startup + attack.active then
        let attackBox := getAttackHitBox s.opponent attack
        let targetBox := getFighterHitBox s.player
        if boxesIntersect attackBox targetBox then acc
        else
          let (ps, rng) := createWhiffParticles jm now
            (attackBox.x + attackBox.width / 2)
            (attackBox.y + attackBox.height / 2) acc.rng
          { acc with
              newParticles := acc.newParticles ++ ps
              soundEvents := acc.soundEvents ++ [SoundEvent.whiff]
              rng := rng }
      else acc
    else acc

/-- `checkHits` from `GameEngine.ts`: the melee pass, composed of its four
source blocks in order. -/
def checkHits (jm : JsMath) (now : ℚ) (state : GameState) (rng : Rng) :
    CombatResult × Rng :=
  let acc : MeleeAcc :=
    { state := state, newParticles := [], newPopups := [],
      soundEvents := [], rng := rng }
  let acc := meleePlayerBlock jm now acc
  let acc := meleeOpponentBlock jm now acc
  let acc := whiffPlayerBlock jm now acc
  let acc := whiffOpponentBlock jm now acc
  ({ state := acc.state, newParticles := acc.newParticles,
     newPopups := acc.newPopups, soundEvents := acc.soundEvents }, acc.rng)

/-- The KO-check block of `updateGameState` (player death checked first). -/
def checkKO (now : ℚ) (state : GameState) (rng : Rng) :
    GameState × List SoundEvent × Rng :=
  if state.player.health ≤ 0 ∧ state.gamePhase = GamePhase.fighting then
    let (pp, rng) := createHitPopup now "K.O.!" 600 250 PopupType.ko rng
    ({ state with
        gamePhase := GamePhase.ko
        winner := some Side.opponent
        slowMo := 0.1
        opponent := { state.opponent with state := FighterState.victory }
        player := { state.player with state := FighterState.defeat }
        camera := { state.camera with targetZoom := 1.3 }
        textPopups := state.textPopups ++ [pp] }, [SoundEvent.ko], rng)
  else if state.opponent.health ≤ 0 ∧ state.gamePhase = GamePhase.fighting then
    let (pp, rng) := createHitPopup now "K.O.!" 600 250 PopupType.ko rng
    ({ state with
        gamePhase := GamePhase.ko
        winner := some Side.player
        slowMo := 0.1
        player := { state.player with state := FighterState.victory }
        opponent := { state.opponent with state := FighterState.defeat }
        camera := { state.camera with targetZoom := 1.3 }
        textPopups := state.textPopups ++ [pp] }, [SoundEvent.ko], rng)
  else (state, [], rng)

/-- The KO-to-victory transition block of `updateGameState`. -/
def koToVictory (state : GameState) : GameState × List SoundEvent :=
  if state.gamePhase = GamePhase.ko ∧ state.slowMo ≥ 0.95 then
    ({ state with gamePhase := GamePhase.victory }, [SoundEvent.victory])
  else (state, [])

def updateParticles (particles : List Particle) : List Particle :=
  (particles.map (fun p => { p with
    x := p.x + p.vx
    y := p.y + p.vy
    vy := p.vy + 0.2
    vx := p.vx * 0.98
    life := p.life - 1
    rotation := p.rotation + p.rotationSpeed })).filter
    (fun p => decide (p.life > 0))

def updateTextPopups (popups : List TextPopup) : List TextPopup :=
  (popups.map (fun p => { p with
    y := p.y - 1.5
    life := p.life - 1
    scale := p.scale * (if p.life > p.maxLife * 0.8 then (1.05 : ℚ) else 1) })).filter
    (fun p => decide (p.life > 0))

def updateCamera (camera : CameraState) (player opponent : Fighter) :
    CameraState :=
  let centerX := (player.position.x + opponent.position.x) / 2
  let distance := |player.position.x - opponent.position.x|
  -- Zoom based on distance
  let targetZoom := max 0.8 (min 1.2 (1 + (400 - distance) / 800))
  { x := (centerX - 600) * 0.1
    y := 0
    zoom := camera.zoom + (camera.targetZoom - camera.zoom) * 0.05
    targetZoom := max targetZoom (camera.targetZoom * 0.99)
    shake := camera.shake * 0.9 }

def noInput : InputState :=
  { left := false, right := false, up := false, down := false,
    punch := false, kick := false, special := false, block := false }

/-- `calculateAIInput` from `GameEngine.ts` (vs-CPU opponent). -/
def calculateAIInput (ai player : Fighter) (rng : Rng) : InputState × Rng :=
  let input := noInput
  if ai.hitStun > 0 then (input, rng)
  else
    let (r0, rng) := rng.next
    -- AI has a "think" cooldown - only acts some of the time
    if r0 > 0.4 then (input, rng)
    else
      let distance := |ai.position.x - player.position.x|
      let isPlayerAttacking := player.state = FighterState.attacking
      let (rand, rng) := rng.next
      if distance > 250 then
        let input :=
          if rand < 0.5 then
            if ai.position.x < player.position.x then { input with right := true }
            else { input with left := true }
          else input
        let input :=
          if rand < 0.005 ∧ ai.isGrounded = true then { input with up := true }
          else input
        (input, rng)
      else if distance < 120 ∧ distance > 70 then
        if isPlayerAttacking ∧ rand < 0.6 then ({ input with block := true }, rng)
        else if rand < 0.025 ∧ ai.state ≠ FighterState.attacking then
          if rand < 0.005 ∧ ai.specialMeter ≥ SPECIAL_METER_COST then
            ({ input with special := true }, rng)
          else if rand < 0.015 then ({ input with punch := true }, rng)
          else ({ input with kick := true }, rng)
        else if rand < 0.1 then
          (if ai.position.x < player.position.x then { input with left := true }
           else { input with right := true }, rng)
        else (input, rng)
      else if distance ≤ 70 then
        if rand < 0.03 ∧ ai.state ≠ FighterState.attacking then
          ({ input with punch := true }, rng)
        else if rand < 0.4 then
          (if ai.position.x < player.position.x then { input with left := true }
           else { input with right := true }, rng)
        else if rand < 0.5 then ({ input with block := true }, rng)
        else (input, rng)
      else
        if rand < 0.02 then
          (if ai.position.x < player.position.x then { input with right := true }
           else { input with left := true }, rng)
        else (input, rng)

/-- `calculateTrainingAIInput` from `GameEngine.ts` (never attacks). -/
def calculateTrainingAIInput (ai player : Fighter) (rng : Rng) :
    InputState × Rng :=
  let input := noInput
  if ai.hitStun > 0 then (input, rng)
  else
    let (r0, rng) := rng.next
    if r0 > 0.3 then (input, rng)
    else
      let distance := |ai.position.x - player.position.x|
      let (rand, rng) := rng.next
      let moved : InputState × Rng :=
        if distance > 200 then
          (if rand < 0.6 then
            if ai.position.x < player.position.x then { input with right := true }
            else { input with left := true }
           else input, rng)
        else if distance < 100 then
          if rand < 0.5 then
            (if ai.position.x < player.position.x then { input with left := true }
             else { input with right := true }, rng)
          else if rand < 0.7 then ({ input with block := true }, rng)
          else (input, rng)
        else
          if rand < 0.3 then
            let (r2, rng) := rng.next
            let l := decide (r2 > 0.5)
            ({ input with left := l, right := !l }, rng)
          else (input, rng)
      let input := moved.1
      let input :=
        if rand < 0.01 ∧ ai.isGrounded = true then { input with up := true }
        else input
      (input, moved.2)

/-- The subset of `CharacterData` the simulation core reads (the remaining
fields — description, country, quotes, stats — are menu-only metadata). -/
structure CharacterData where
  id : String
  name : String
  color : String
  secondaryColor : String
  faceImage : String
  projectileText : String
  attacks : AttackSet
deriving DecidableEq, Repr

def createFighter (characterData : CharacterData) (x : ℚ)
    (facing : Facing) : Fighter :=
  { id := characterData.id
    name := characterData.name
    color := characterData.color
    secondaryColor := characterData.secondaryColor
    faceImage := characterData.faceImage
    position := { x := x, y := GROUND_Y }
    velocity := { x := 0, y := 0 }
    health := 100
    maxHealth := 100
    facing := facing
    state := FighterState.idle
    stateFrame := 0
    currentAttack := none
    isBlocking := false
    isGrounded := true
    hitStun := 0
    comboCount := 0
    specialMeter := 0 }

def createInitialGameState (playerData opponentData : CharacterData) :
    GameState :=
  { player := createFighter playerData 250 Facing.right
    opponent := createFighter opponentData 950 Facing.left
    particles := []
    projectiles := []
    textPopups := []
    camera := { x := 0, y := 0, zoom := 1, shake := 0, targetZoom := 1 }
    gamePhase := GamePhase.intro
    winner := none
    slowMo := 1
    roundTime := 99 }

structure GameUpdateResult where
  state : GameState
  soundEvents : List SoundEvent
deriving DecidableEq, Repr

/-- Slow-motion decay step at the top of `updateGameState`. -/
def slowMoDecay (state : GameState) : GameState :=
  if state.slowMo < 1 then { state with slowMo := min 1 (state.slowMo + 0.02) }
  else state

/-- "Spawn player projectile if special was just started" block. -/
def spawnPlayerSpecial (now : ℚ) (state : GameState) (playerAttacks : AttackSet)
    (text : String) (spawned : Bool) (rng : Rng) :
    List Projectile × List SoundEvent × Rng :=
  if spawned then
    let (projectile, rng) := createProjectile now state.player
      playerAttacks.special Side.player text state.player.color rng
    ([projectile], [SoundEvent.special], rng)
  else ([], [], rng)

/-- "Spawn opponent projectile if special was just started" block. -/
def spawnOpponentSpecial (now : ℚ) (state : GameState)
    (opponentAttacks : AttackSet) (text : String) (spawned : Bool) (rng : Rng) :
    List Projectile × List SoundEvent × Rng :=
  if spawned then
    let (projectile, rng) := createProjectile now state.opponent
      opponentAttacks.special Side.opponent text state.opponent.color rng
    ([projectile], [SoundEvent.special], rng)
  else ([], [], rng)

/-- "Determine opponent input based on game mode" block. -/
def chooseOpponentInput (state : GameState) (gameMode : GameMode)
    (remoteInput : Option InputState) (rng : Rng) : InputState × Rng :=
  match gameMode, remoteInput with
  | GameMode.online, some ri => (ri, rng)
  | GameMode.online, none => calculateAIInput state.opponent state.player rng
  | GameMode.training, _ =>
    calculateTrainingAIInput state.opponent state.player rng
  | GameMode.vsCpu, _ => calculateAIInput state.opponent state.player rng
  | GameMode.tournament, _ => calculateAIInput state.opponent state.player rng

/-- "Face each other" block of `updateGameState`. -/
def faceEachOther (state : GameState) : GameState :=
  let state :=
    if state.player.state ≠ FighterState.hit ∧
        state.player.state ≠ FighterState.attacking then
      { state with player := { state.player with
          facing := if state.player.position.x < state.opponent.position.x
            then Facing.right else Facing.left } }
    else state
  if state.opponent.state ≠ FighterState.hit ∧
      state.opponent.state ≠ FighterState.attacking then
    { state with opponent := { state.opponent with
        facing := if state.opponent.position.x < state.player.position.x
          then Facing.right else Facing.left } }
  else state

/-- Merge a hit pass's cosmetic output into the game state (the
`newState.particles = [...]; newState.textPopups = [...]` lines). -/
def absorbCombatResult (result : CombatResult) : GameState :=
  { result.state with
      particles := result.state.particles ++ result.newParticles
      textPopups := result.state.textPopups ++ result.newPopups }

/-- First phase of `updateGameState` (source order): capture the time
scale, decay slow motion, update both fighters and spawn their special
projectiles; returns the updated state, new projectiles, spawn sounds
and the advanced rng. -/
def fighterPhase (now : ℚ) (state : GameState) (playerInput : InputState)
    (playerAttacks opponentAttacks : AttackSet) (gameMode : GameMode)
    (remoteInput : Option InputState)
    (playerProjectileText opponentProjectileText : String) (rng : Rng) :
    GameState × List Projectile × List SoundEvent × Rng :=
  -- Apply slow motion; update slow-motion decay
  let timeScale := state.slowMo
  let s1 := slowMoDecay state
  -- Update fighters
  let playerResult := updateFighter s1.player playerInput playerAttacks
    timeScale s1.gamePhase
  let s2 : GameState := { s1 with player := playerResult.fighter }
  let sp1 := spawnPlayerSpecial now s2 playerAttacks playerProjectileText
    playerResult.spawnedSpecial rng
  let oi := chooseOpponentInput s2 gameMode remoteInput sp1.2.2
  let opponentResult := updateFighter s2.opponent oi.1 opponentAttacks
    timeScale s2.gamePhase
  let s3 : GameState := { s2 with opponent := opponentResult.fighter }
  let sp2 := spawnOpponentSpecial now s3 opponentAttacks
    opponentProjectileText opponentResult.spawnedSpecial oi.2
  (s3, sp1.1 ++ sp2.1, sp1.2.1 ++ sp2.2.1, sp2.2.2)

/-- Second phase of `updateGameState`: facing, projectile advance and
the two hit passes; returns the updated state, the hit-pass sounds and
the advanced rng. -/
def combatPhase (jm : JsMath) (now : ℚ) (state : GameState)
    (newProjectiles : List Projectile) (rng : Rng) :
    GameState × List SoundEvent × Rng :=
  -- Face each other
  let s4 := faceEachOther state
  -- Add new projectiles, then update them
  let s5 : GameState :=
    { s4 with projectiles := updateProjectiles (s4.projectiles ++ newProjectiles) }
  -- Check for projectile hits
  let ph := checkProjectileHits jm now s5 rng
  let s6 := absorbCombatResult ph.1
  -- Check for melee hits (excludes specials which use projectiles)
  let mh := checkHits jm now s6 ph.2
  let s7 := absorbCombatResult mh.1
  (s7, ph.1.soundEvents ++ mh.1.soundEvents, mh.2)

/-- Third phase of `updateGameState`: KO check, ko-to-victory
transition, and the cosmetic updates (particles, popups, camera). -/
def endPhase (now : ℚ) (state : GameState) (rng : Rng) :
    GameState × List SoundEvent :=
  -- Check for KO
  let ko := checkKO now state rng
  -- Transition from KO to victory
  let vic := koToVictory ko.1
  -- Update particles, text popups, camera
  let s8 : GameState := { vic.1 with
    particles := updateParticles vic.1.particles
    textPopups := updateTextPopups vic.1.textPopups }
  let s9 : GameState :=
    { s8 with camera := updateCamera s8.camera s8.player s8.opponent }
  (s9, ko.2.1 ++ vic.2)

/-- `updateGameState` from `GameEngine.ts`: one simulation tick, composed
of its source-ordered phases. -/
def updateGameState (jm : JsMath) (now : ℚ) (state : GameState)
    (playerInput : InputState) (playerAttacks opponentAttacks : AttackSet)
    (_deltaTime : ℚ) (gameMode : GameMode) (remoteInput : Option InputState)
    (playerProjectileText opponentProjectileText : String)
    (rng : Rng) : GameUpdateResult :=
  if state.gamePhase = GamePhase.victory then
    { state := { state with
        particles := updateParticles state.particles
        projectiles := updateProjectiles state.projectiles
        textPopups := updateTextPopups state.textPopups }
      soundEvents := [] }
  else
    let fp := fighterPhase now state playerInput playerAttacks
      opponentAttacks gameMode remoteInput playerProjectileText
      opponentProjectileText rng
    let cp := combatPhase jm now fp.1 fp.2.1 fp.2.2.2
    let ep := endPhase now cp.1 cp.2.2
    { state := ep.1, soundEvents := fp.2.2.1 ++ cp.2.1 ++ ep.2 }

/-! Concrete fixtures used by counterexamples and witnesses. -/

def jm0 : JsMath := { cos := fun _ => 0, sin := fun _ => 0, pi := 0 }

def rngZero : Rng := { seq := fun _ => 0, idx := 0 }

def rngHalf : Rng := { seq := fun _ => 1/2, idx := 0 }

def punchAttack : Attack :=
  { name := "Thunder Fist", damage := 15, range := 80, startup := 5, active := 5,
    recovery := 12, knockback := 12, type := AttackType.punch, sound := "WHAM!" }

def kickAttack : Attack :=
  { name := "Dragon Kick", damage := 18, range := 90, startup := 8, active := 6,
    recovery := 16, knockback := 15, type := AttackType.kick, sound := "POW!" }

def specialAttack : Attack :=
  { name := "Woflow Wave", damage := 25, range := 60, startup := 5, active := 5,
    recovery := 12, knockback := 20, type := AttackType.special, sound := "BOOM!" }

def testAttacks : AttackSet :=
  { punch := punchAttack, kick := kickAttack, special := specialAttack }

def baseFighter (x : ℚ) (facing : Facing) : Fighter :=
  { id := "wil", name := "WIL", color := "#FF4444", secondaryColor := "#FF8800",
    faceImage := "/assets/fighters/wil.png",
    position := { x := x, y := GROUND_Y }, velocity := { x := 0, y := 0 },
    health := 100, maxHealth := 100, facing := facing,
    state := FighterState.idle, stateFrame := 0, currentAttack := none,
    isBlocking := false, isGrounded := true, hitStun := 0, comboCount := 0,
    specialMeter := 0 }

def baseCamera : CameraState :=
  { x := 0, y := 0, zoom := 1, shake := 0, targetZoom := 1 }

def baseState : GameState :=
  { player := baseFighter 250 Facing.right
    opponent := baseFighter 950 Facing.left
    particles := [], projectiles := [], textPopups := []
    camera := baseCamera
    gamePhase := GamePhase.fighting, winner := none, slowMo := 1, roundTime := 99 }


/-! ## Helper lemmas about the fighter-update stages -/

lemma fighterResetAttack_hitStun (f : Fighter) :
    (fighterResetAttack f).hitStun = f.hitStun := by
  simp only [fighterResetAttack]; split_ifs <;> rfl

lemma fighterResetAttack_comboCount (f : Fighter) :
    (fighterResetAttack f).comboCount = f.comboCount := by
  simp only [fighterResetAttack]; split_ifs <;> rfl

lemma fighterResetAttack_health (f : Fighter) :
    (fighterResetAttack f).health = f.health := by
  simp only [fighterResetAttack]; split_ifs <;> rfl

lemma fighterResetAttack_specialMeter (f : Fighter) :
    (fighterResetAttack f).specialMeter = f.specialMeter := by
  simp only [fighterResetAttack]; split_ifs <;> rfl

lemma fighterResetAttack_isGrounded (f : Fighter) :
    (fighterResetAttack f).isGrounded = f.isGrounded := by
  simp only [fighterResetAttack]; split_ifs <;> rfl

lemma fighterInputAttack_hitStun (f : Fighter) (input : InputState)
    (attacks : AttackSet) (ts : ℚ) :
    (fighterInputAttack f input attacks ts).1.hitStun = f.hitStun := by
  simp only [fighterInputAttack]; split_ifs <;> rfl

lemma fighterInputAttack_comboCount (f : Fighter) (input : InputState)
    (attacks : AttackSet) (ts : ℚ) :
    (fighterInputAttack f input attacks ts).1.comboCount = f.comboCount := by
  simp only [fighterInputAttack]; split_ifs <;> rfl

lemma fighterInputAttack_health (f : Fighter) (input : InputState)
    (attacks : AttackSet) (ts : ℚ) :
    (fighterInputAttack f input attacks ts).1.health = f.health := by
  simp only [fighterInputAttack]; split_ifs <;> rfl

lemma fighterMove_hitStun (f : Fighter) (input : InputState) (ts : ℚ) :
    (fighterMove f input ts).hitStun = f.hitStun := by
  simp only [fighterMove]; split_ifs <;> rfl

lemma fighterMove_comboCount (f : Fighter) (input : InputState) (ts : ℚ) :
    (fighterMove f input ts).comboCount = f.comboCount := by
  simp only [fighterMove]; split_ifs <;> rfl

lemma fighterMove_health (f : Fighter) (input : InputState) (ts : ℚ) :
    (fighterMove f input ts).health = f.health := by
  simp only [fighterMove]; split_ifs <;> rfl

lemma fighterMove_specialMeter (f : Fighter) (input : InputState) (ts : ℚ) :
    (fighterMove f input ts).specialMeter = f.specialMeter := by
  simp only [fighterMove]; split_ifs <;> rfl

lemma fighterMove_currentAttack (f : Fighter) (input : InputState) (ts : ℚ) :
    (fighterMove f input ts).currentAttack = f.currentAttack := by
  simp only [fighterMove]; split_ifs <;> rfl

lemma fighterMove_stateFrame (f : Fighter) (input : InputState) (ts : ℚ) :
    (fighterMove f input ts).stateFrame = f.stateFrame := by
  simp only [fighterMove]; split_ifs <;> rfl

lemma fighterBlock_hitStun (f : Fighter) (input : InputState) :
    (fighterBlock f input).hitStun = f.hitStun := by
  simp only [fighterBlock]; split_ifs <;> rfl

lemma fighterBlock_comboCount (f : Fighter) (input : InputState) :
    (fighterBlock f input).comboCount = f.comboCount := by
  simp only [fighterBlock]; split_ifs <;> rfl

lemma fighterBlock_health (f : Fighter) (input : InputState) :
    (fighterBlock f input).health = f.health := by
  simp only [fighterBlock]; split_ifs <;> rfl

lemma fighterBlock_specialMeter (f : Fighter) (input : InputState) :
    (fighterBlock f input).specialMeter = f.specialMeter := by
  simp only [fighterBlock]; split_ifs <;> rfl

lemma fighterBlock_currentAttack (f : Fighter) (input : InputState) :
    (fighterBlock f input).currentAttack = f.currentAttack := by
  simp only [fighterBlock]; split_ifs <;> rfl

lemma fighterBlock_stateFrame (f : Fighter) (input : InputState) :
    (fighterBlock f input).stateFrame = f.stateFrame := by
  simp only [fighterBlock]; split_ifs <;> rfl

lemma fighterIdleFallback_hitStun (f : Fighter) (input : InputState) :
    (fighterIdleFallback f input).hitStun = f.hitStun := by
  simp only [fighterIdleFallback]; split_ifs <;> rfl

lemma fighterIdleFallback_comboCount (f : Fighter) (input : InputState) :
    (fighterIdleFallback f input).comboCount = f.comboCount := by
  simp only [fighterIdleFallback]; split_ifs <;> rfl

lemma fighterIdleFallback_health (f : Fighter) (input : InputState) :
    (fighterIdleFallback f input).health = f.health := by
  simp only [fighterIdleFallback]; split_ifs <;> rfl

lemma fighterIdleFallback_specialMeter (f : Fighter) (input : InputState) :
    (fighterIdleFallback f input).specialMeter = f.specialMeter := by
  simp only [fighterIdleFallback]; split_ifs <;> rfl

lemma fighterIdleFallback_currentAttack (f : Fighter) (input : InputState) :
    (fighterIdleFallback f input).currentAttack = f.currentAttack := by
  simp only [fighterIdleFallback]; split_ifs <;> rfl

lemma fighterIdleFallback_stateFrame (f : Fighter) (input : InputState) :
    (fighterIdleFallback f input).stateFrame = f.stateFrame := by
  simp only [fighterIdleFallback]; split_ifs <;> rfl

lemma fighterMoveBlock_hitStun (f : Fighter) (input : InputState) (ts : ℚ) :
    (fighterMoveBlock f input ts).hitStun = f.hitStun := by
  simp only [fighterMoveBlock, fighterIdleFallback_hitStun,
    fighterBlock_hitStun, fighterMove_hitStun]

lemma fighterMoveBlock_comboCount (f : Fighter) (input : InputState) (ts : ℚ) :
    (fighterMoveBlock f input ts).comboCount = f.comboCount := by
  simp only [fighterMoveBlock, fighterIdleFallback_comboCount,
    fighterBlock_comboCount, fighterMove_comboCount]

lemma fighterMoveBlock_health (f : Fighter) (input : InputState) (ts : ℚ) :
    (fighterMoveBlock f input ts).health = f.health := by
  simp only [fighterMoveBlock, fighterIdleFallback_health,
    fighterBlock_health, fighterMove_health]

lemma fighterMoveBlock_specialMeter (f : Fighter) (input : InputState) (ts : ℚ) :
    (fighterMoveBlock f input ts).specialMeter = f.specialMeter := by
  simp only [fighterMoveBlock, fighterIdleFallback_specialMeter,
    fighterBlock_specialMeter, fighterMove_specialMeter]

lemma fighterMoveBlock_currentAttack (f : Fighter) (input : InputState) (ts : ℚ) :
    (fighterMoveBlock f input ts).currentAttack = f.currentAttack := by
  simp only [fighterMoveBlock, fighterIdleFallback_currentAttack,
    fighterBlock_currentAttack, fighterMove_currentAttack]

lemma fighterMoveBlock_stateFrame (f : Fighter) (input : InputState) (ts : ℚ) :
    (fighterMoveBlock f input ts).stateFrame = f.stateFrame := by
  simp only [fighterMoveBlock, fighterIdleFallback_stateFrame,
    fighterBlock_stateFrame, fighterMove_stateFrame]

lemma fighterPhysicsStep_hitStun (f : Fighter) (ts : ℚ) :
    (fighterPhysicsStep f ts).hitStun = f.hitStun := by
  simp only [fighterPhysicsStep]; split_ifs <;> rfl

lemma fighterPhysicsStep_comboCount (f : Fighter) (ts : ℚ) :
    (fighterPhysicsStep f ts).comboCount = f.comboCount := by
  simp only [fighterPhysicsStep]; split_ifs <;> rfl

lemma fighterPhysicsStep_health (f : Fighter) (ts : ℚ) :
    (fighterPhysicsStep f ts).health = f.health := by
  simp only [fighterPhysicsStep]; split_ifs <;> rfl

lemma fighterPhysicsStep_specialMeter (f : Fighter) (ts : ℚ) :
    (fighterPhysicsStep f ts).specialMeter = f.specialMeter := by
  simp only [fighterPhysicsStep]; split_ifs <;> rfl

lemma fighterPhysicsStep_currentAttack (f : Fighter) (ts : ℚ) :
    (fighterPhysicsStep f ts).currentAttack = f.currentAttack := by
  simp only [fighterPhysicsStep]; split_ifs <;> rfl

lemma fighterPhysicsStep_stateFrame (f : Fighter) (ts : ℚ) :
    (fighterPhysicsStep f ts).stateFrame = f.stateFrame := by
  simp only [fighterPhysicsStep]; split_ifs <;> rfl

lemma fighterPhysicsStep_isBlocking (f : Fighter) (ts : ℚ) :
    (fighterPhysicsStep f ts).isBlocking = f.isBlocking := by
  simp only [fighterPhysicsStep]; split_ifs <;> rfl

lemma fighterPhysicsStep_state (f : Fighter) (ts : ℚ) :
    (fighterPhysicsStep f ts).state = f.state ∨
      (f.state = FighterState.jumping ∧
        (fighterPhysicsStep f ts).state = FighterState.idle) := by
  simp only [fighterPhysicsStep]; split_ifs <;> simp_all

lemma fighterActStep_hitStun (f : Fighter) (input : InputState)
    (attacks : AttackSet) (ts : ℚ) :
    (fighterActStep f input attacks ts).1.hitStun = f.hitStun := by
  simp only [fighterActStep, fighterMoveBlock_hitStun,
    fighterInputAttack_hitStun, fighterResetAttack_hitStun]

lemma fighterActStep_comboCount (f : Fighter) (input : InputState)
    (attacks : AttackSet) (ts : ℚ) :
    (fighterActStep f input attacks ts).1.comboCount = f.comboCount := by
  simp only [fighterActStep, fighterMoveBlock_comboCount,
    fighterInputAttack_comboCount, fighterResetAttack_comboCount]

lemma fighterActStep_health (f : Fighter) (input : InputState)
    (attacks : AttackSet) (ts : ℚ) :
    (fighterActStep f input attacks ts).1.health = f.health := by
  simp only [fighterActStep, fighterMoveBlock_health,
    fighterInputAttack_health, fighterResetAttack_health]

/-! ## Claim C2: hit-stun gating in `updateFighter` -/

/-- Fighter used by the C2 counterexample: grounded and idle at the
ground line, with exactly one tick of hit-stun remaining. -/
def c2Fighter : Fighter := { baseFighter 250 Facing.right with hitStun := 1 }

/-- C2 (counterexample). The claim states that whenever `hitStun > 0` at
tick start, no input-driven transition is processed that tick and the
fighter ends the crossing tick in `idle`. In the code the hit-stun
decrement runs first, so on the very tick `hitStun` crosses to 0 the
fighter may act: starting with `hitStun = 1` and punch held, the tick
ends in state `attacking` with the punch assigned. -/
theorem c2_hitstun_gate_counterexample :
    c2Fighter.hitStun > 0 ∧
    (updateFighter c2Fighter { noInput with punch := true } testAttacks 1
      GamePhase.fighting).fighter.state = FighterState.attacking ∧
    (updateFighter c2Fighter { noInput with punch := true } testAttacks 1
      GamePhase.fighting).fighter.currentAttack = some punchAttack := by
  with_unfolding_all decide

/-- C2 (amended). During the fighting phase, with `0 ≤ timeScale`:
(a) if `hitStun > timeScale` at tick start (the decrement leaves the
fighter stunned), no input-driven transition occurs that tick — only the
hit-stun decrement, the unconditional physics integration and the
`stateFrame` increment run; the only possible state change is the
jumping-to-idle landing transition; (b) if `0 < hitStun ≤ timeScale`
(the crossing tick), `hitStun` is forced to exactly 0 and `comboCount`
to 0, and a fighter resting on the ground with no input ends the tick
in `idle` — but input is processed again on that same crossing tick
(see the counterexample). -/
theorem c2_hitstun_gate_amended (f : Fighter) (input : InputState)
    (attacks : AttackSet) (ts : ℚ) (h0 : 0 ≤ ts) (hstun : 0 < f.hitStun) :
    (ts < f.hitStun →
      (updateFighter f input attacks ts GamePhase.fighting).fighter.hitStun =
          f.hitStun - ts ∧
      (updateFighter f input attacks ts GamePhase.fighting).fighter.comboCount =
          f.comboCount ∧
      (updateFighter f input attacks ts GamePhase.fighting).fighter.currentAttack =
          f.currentAttack ∧
      (updateFighter f input attacks ts GamePhase.fighting).fighter.specialMeter =
          f.specialMeter ∧
      (updateFighter f input attacks ts GamePhase.fighting).fighter.isBlocking =
          f.isBlocking ∧
      (updateFighter f input attacks ts GamePhase.fighting).fighter.health =
          f.health ∧
      (updateFighter f input attacks ts GamePhase.fighting).fighter.stateFrame =
          f.stateFrame + 1 ∧
      ((updateFighter f input attacks ts GamePhase.fighting).fighter.state =
          f.state ∨
        (f.state = FighterState.jumping ∧
          (updateFighter f input attacks ts GamePhase.fighting).fighter.state =
            FighterState.idle)) ∧
      (updateFighter f input attacks ts GamePhase.fighting).spawnedSpecial =
        false) ∧
    (f.hitStun ≤ ts →
      (updateFighter f input attacks ts GamePhase.fighting).fighter.hitStun = 0 ∧
      (updateFighter f input attacks ts GamePhase.fighting).fighter.comboCount =
        0 ∧
      (input = noInput → f.position.y = GROUND_Y → f.velocity.y = 0 →
        (updateFighter f input attacks ts GamePhase.fighting).fighter.state =
          FighterState.idle)) := by
  constructor
  · intro hlt
    have hns : ¬ f.hitStun - ts ≤ 0 := by linarith
    have hstep : fighterHitstunStep f ts = { f with hitStun := f.hitStun - ts } := by
      simp [fighterHitstunStep, hstun, hns]
    have hca : fighterCanAct { f with hitStun := f.hitStun - ts } = false := by
      simp [fighterCanAct, hns]
    simp only [updateFighter, hstep, hca]
    simp only [reduceCtorEq, false_or, if_false, Bool.false_eq_true,
      fighterPhysicsStep_hitStun, fighterPhysicsStep_comboCount,
      fighterPhysicsStep_currentAttack, fighterPhysicsStep_specialMeter,
      fighterPhysicsStep_isBlocking, fighterPhysicsStep_health,
      fighterPhysicsStep_stateFrame]
    refine ⟨trivial, trivial, trivial, trivial, trivial, trivial, trivial, ?_,
      by simp⟩
    simpa using fighterPhysicsStep_state { f with hitStun := f.hitStun - ts } ts
  · intro hle
    have hcross : f.hitStun - ts ≤ 0 := by linarith
    have hstep : fighterHitstunStep f ts =
        { f with
            hitStun := 0, state := FighterState.idle, comboCount := 0 } := by
      simp [fighterHitstunStep, hstun, hcross]
    refine ⟨?_, ?_, ?_⟩
    · simp only [updateFighter, hstep]
      by_cases hca : fighterCanAct
          { f with hitStun := 0, state := FighterState.idle, comboCount := 0 } <;>
        simp [hca, fighterActStep_hitStun, fighterPhysicsStep_hitStun]
    · simp only [updateFighter, hstep]
      by_cases hca : fighterCanAct
          { f with hitStun := 0, state := FighterState.idle, comboCount := 0 } <;>
        simp [hca, fighterActStep_comboCount, fighterPhysicsStep_comboCount]
    · intro hni hpy hvy
      subst hni
      have hca : fighterCanAct
          { f with hitStun := 0, state := FighterState.idle, comboCount := 0 } =
            true := by
        simp [fighterCanAct]
      have hreset : fighterResetAttack
          { f with hitStun := 0, state := FighterState.idle, comboCount := 0 } =
          { f with hitStun := 0, state := FighterState.idle, comboCount := 0 } := by
        simp [fighterResetAttack]
      simp only [updateFighter, hstep, hca, if_true, fighterActStep, hreset]
      simp only [fighterInputAttack, fighterMoveBlock, fighterMove,
        fighterBlock, fighterIdleFallback, noInput]
      simp only [Bool.false_eq_true, false_and, if_false, if_neg,
        not_false_eq_true]
      simp only [fighterPhysicsStep]
      split_ifs <;> simp_all

/-! ## Helper lemmas about the melee-pass blocks -/

lemma meleePlayerBlock_inactive (jm : JsMath) (now : ℚ) (acc : MeleeAcc)
    (h : isAttackActive acc.state.player = false) :
    meleePlayerBlock jm now acc = acc := by
  simp [meleePlayerBlock, h]

lemma meleeOpponentBlock_inactive (jm : JsMath) (now : ℚ) (acc : MeleeAcc)
    (h : isAttackActive acc.state.opponent = false) :
    meleeOpponentBlock jm now acc = acc := by
  simp [meleeOpponentBlock, h]

lemma meleePlayerBlock_target_stunned (jm : JsMath) (now : ℚ) (acc : MeleeAcc)
    (h : 0 < acc.state.opponent.hitStun) :
    meleePlayerBlock jm now acc = acc := by
  have h2 : ¬ acc.state.opponent.hitStun ≤ 0 := not_le.mpr h
  simp [meleePlayerBlock, h2]

lemma meleeOpponentBlock_target_stunned (jm : JsMath) (now : ℚ) (acc : MeleeAcc)
    (h : 0 < acc.state.player.hitStun) :
    meleeOpponentBlock jm now acc = acc := by
  have h2 : ¬ acc.state.player.hitStun ≤ 0 := not_le.mpr h
  simp [meleeOpponentBlock, h2]

/-- The opponent's melee block never touches the opponent's own health,
hit-stun, combo count, state, velocity, position, facing or blocking
flag (it only grants the opponent meter and retires its attack frame). -/
lemma meleeOpponentBlock_opponent_core (jm : JsMath) (now : ℚ)
    (acc : MeleeAcc) :
    (meleeOpponentBlock jm now acc).state.opponent.health =
        acc.state.opponent.health ∧
    (meleeOpponentBlock jm now acc).state.opponent.hitStun =
        acc.state.opponent.hitStun ∧
    (meleeOpponentBlock jm now acc).state.opponent.comboCount =
        acc.state.opponent.comboCount ∧
    (meleeOpponentBlock jm now acc).state.opponent.state =
        acc.state.opponent.state ∧
    (meleeOpponentBlock jm now acc).state.opponent.velocity =
        acc.state.opponent.velocity ∧
    (meleeOpponentBlock jm now acc).state.opponent.position =
        acc.state.opponent.position ∧
    (meleeOpponentBlock jm now acc).state.opponent.isBlocking =
        acc.state.opponent.isBlocking := by
  rcases hopt : acc.state.opponent.currentAttack with _ | attack <;>
    simp only [meleeOpponentBlock, hopt] <;> split_ifs <;> simp

/-- The player's melee block never touches the player's own health,
hit-stun, combo count, state, velocity, position, facing or blocking
flag. -/
lemma meleePlayerBlock_player_core (jm : JsMath) (now : ℚ)
    (acc : MeleeAcc) :
    (meleePlayerBlock jm now acc).state.player.health =
        acc.state.player.health ∧
    (meleePlayerBlock jm now acc).state.player.hitStun =
        acc.state.player.hitStun ∧
    (meleePlayerBlock jm now acc).state.player.comboCount =
        acc.state.player.comboCount ∧
    (meleePlayerBlock jm now acc).state.player.state =
        acc.state.player.state ∧
    (meleePlayerBlock jm now acc).state.player.velocity =
        acc.state.player.velocity ∧
    (meleePlayerBlock jm now acc).state.player.position =
        acc.state.player.position ∧
    (meleePlayerBlock jm now acc).state.player.isBlocking =
        acc.state.player.isBlocking := by
  rcases hopt : acc.state.player.currentAttack with _ | attack <;>
    simp only [meleePlayerBlock, hopt] <;> split_ifs <;> simp

lemma whiffPlayerBlock_state (jm : JsMath) (now : ℚ) (acc : MeleeAcc) :
    (whiffPlayerBlock jm now acc).state = acc.state := by
  rcases hopt : acc.state.player.currentAttack with _ | attack <;>
    simp only [whiffPlayerBlock, hopt] <;> split_ifs <;> rfl

lemma whiffOpponentBlock_state (jm : JsMath) (now : ℚ) (acc : MeleeAcc) :
    (whiffOpponentBlock jm now acc).state = acc.state := by
  rcases hopt : acc.state.opponent.currentAttack with _ | attack <;>
    simp only [whiffOpponentBlock, hopt] <;> split_ifs <;> rfl

/-- C2 witness: the amended theorem applied at a concrete stunned fighter
(`hitStun = 3`, `timeScale = 1`, punch held): the tick only decrements the
stun. -/
theorem c2_hitstun_gate_amended_witness :
    (updateFighter { baseFighter 250 Facing.right with hitStun := 3 }
      { noInput with punch := true } testAttacks 1
        GamePhase.fighting).fighter.hitStun =
      ({ baseFighter 250 Facing.right with hitStun := 3 } : Fighter).hitStun - 1 :=
  ((c2_hitstun_gate_amended
      { baseFighter 250 Facing.right with hitStun := 3 }
      { noInput with punch := true } testAttacks 1 (by norm_num)
      (by norm_num)).1 (by norm_num)).1

/-! ## Claim C7: special attacks bypass the melee hitbox path -/

/-- C7. (i) `isAttackActive` is `false` whenever the current attack has
type `special`, for every fighter — hence at every distance, including
point-blank; (ii) consequently, when the player's current attack is a
special, the melee pass `checkHits` leaves the opponent's health,
hit-stun, combo count, state and velocity untouched (a special deals
damage only through its projectile); (iii) firing a special with
`specialMeter = 60` leaves the meter at exactly `10 = 60 - 50` and
signals the projectile spawn. -/
theorem c7_special_bypasses_melee :
    (∀ (f : Fighter) (a : Attack), f.currentAttack = some a →
      a.type = AttackType.special → isAttackActive f = false) ∧
    (∀ (jm : JsMath) (now : ℚ) (s : GameState) (rng : Rng) (a : Attack),
      s.player.currentAttack = some a → a.type = AttackType.special →
      (checkHits jm now s rng).1.state.opponent.health = s.opponent.health ∧
      (checkHits jm now s rng).1.state.opponent.hitStun = s.opponent.hitStun ∧
      (checkHits jm now s rng).1.state.opponent.comboCount =
        s.opponent.comboCount ∧
      (checkHits jm now s rng).1.state.opponent.state = s.opponent.state ∧
      (checkHits jm now s rng).1.state.opponent.velocity =
        s.opponent.velocity) ∧
    (∀ (f : Fighter) (input : InputState) (attacks : AttackSet),
      input.special = true → f.isGrounded = true → f.hitStun ≤ 0 →
      f.state ≠ FighterState.attacking → f.specialMeter = 60 →
      (updateFighter f input attacks 1 GamePhase.fighting).fighter.specialMeter =
        10 ∧
      (updateFighter f input attacks 1 GamePhase.fighting).spawnedSpecial =
        true ∧
      (updateFighter f input attacks 1 GamePhase.fighting).fighter.currentAttack =
        some attacks.special) := by
  refine ⟨?_, ?_, ?_⟩
  · intro f a h1 h2
    simp only [isAttackActive, h1]
    split_ifs <;> simp_all
  · intro jm now s rng a h1 h2
    have hact : isAttackActive s.player = false := by
      simp only [isAttackActive, h1]
      split_ifs <;> simp_all
    simp only [checkHits]
    set acc0 : MeleeAcc :=
      { state := s, newParticles := [], newPopups := [],
        soundEvents := [], rng := rng } with hacc0
    have e1 : meleePlayerBlock jm now acc0 = acc0 :=
      meleePlayerBlock_inactive jm now acc0 (by simpa [hacc0] using hact)
    rw [e1]
    have e2 := meleeOpponentBlock_opponent_core jm now acc0
    have e3 := whiffPlayerBlock_state jm now (meleeOpponentBlock jm now acc0)
    have e4 := whiffOpponentBlock_state jm now
      (whiffPlayerBlock jm now (meleeOpponentBlock jm now acc0))
    simp only [e4, e3]
    obtain ⟨eh, es, ec, est, ev, _, _⟩ := e2
    exact ⟨eh, es, ec, est, ev⟩
  · intro f input attacks hsp hg hhs hst hm
    have hnot : ¬ f.hitStun > 0 := not_lt.mpr hhs
    have h1 : fighterHitstunStep f 1 = f := by
      simp [fighterHitstunStep, hnot]
    have hca : fighterCanAct f = true := by
      simp [fighterCanAct, hhs, hst]
    have hra : fighterResetAttack f = f := by
      simp [fighterResetAttack, hst]
    have hmeter : f.specialMeter ≥ SPECIAL_METER_COST := by
      rw [hm]; norm_num [SPECIAL_METER_COST]
    have hia : fighterInputAttack f input attacks 1 =
        ({ f with
             state := FighterState.attacking
             currentAttack := some attacks.special
             stateFrame := 0
             velocity := { f.velocity with x := f.velocity.x * 0.2 }
             specialMeter := f.specialMeter - SPECIAL_METER_COST }, true) := by
      simp [fighterInputAttack, hsp, hg, hmeter]
    simp only [updateFighter, h1, hca, if_true, fighterActStep, hra, hia]
    simp only [reduceCtorEq, false_or, if_false,
      fighterPhysicsStep_specialMeter, fighterPhysicsStep_currentAttack,
      fighterMoveBlock_specialMeter, fighterMoveBlock_currentAttack]
    refine ⟨?_, by simp, by simp⟩
    simp only [hm, SPECIAL_METER_COST]
    norm_num

/-- C7 witness: the special attack is never melee-active even at
point-blank range, and firing it at meter 60 leaves exactly 10. -/
theorem c7_special_bypasses_melee_witness :
    isAttackActive { baseFighter 500 Facing.right with
      state := FighterState.attacking,
      currentAttack := some specialAttack, stateFrame := 6 } = false ∧
    (updateFighter { baseFighter 250 Facing.right with specialMeter := 60 }
      { noInput with special := true } testAttacks 1
        GamePhase.fighting).fighter.specialMeter = 10 :=
  ⟨c7_special_bypasses_melee.1 _ specialAttack rfl rfl,
    (c7_special_bypasses_melee.2.2 _ _ testAttacks rfl rfl
      (by with_unfolding_all decide) (by with_unfolding_all decide)
      (by with_unfolding_all decide)).1⟩

/-! ## Claim C10: projectiles re-hit stunned targets, melee does not -/

set_option maxRecDepth 4000 in
/-- C10. (a) The projectile pass applies the full hit — damage,
`hitStun = 25`, state `hit`, combo increment, both meter gains, one
`special` sound — to a non-blocking target even when the target's
`hitStun` is already positive (no stun guard exists on the projectile
path); (b) the melee pass registers nothing against a target whose
`hitStun` is positive: the target's health, hit-stun, combo count and
state are unchanged by `checkHits`. -/
theorem c10_projectile_rehit_melee_stun_guard :
    (∀ (jm : JsMath) (now : ℚ) (s : GameState) (rng : Rng) (p : Projectile),
      s.projectiles = [p] → p.owner = Side.player →
      boxesIntersect (getProjectileHitBox p) (getFighterHitBox s.opponent) =
        true →
      s.opponent.isBlocking = false → 0 < s.opponent.hitStun →
      (checkProjectileHits jm now s rng).1.state.opponent.health =
          s.opponent.health - p.damage ∧
      (checkProjectileHits jm now s rng).1.state.opponent.hitStun = 25 ∧
      (checkProjectileHits jm now s rng).1.state.opponent.state =
          FighterState.hit ∧
      (checkProjectileHits jm now s rng).1.state.opponent.comboCount =
          s.opponent.comboCount + 1 ∧
      (checkProjectileHits jm now s rng).1.state.player.specialMeter =
          min 100 (s.player.specialMeter + METER_GAIN_ON_HIT) ∧
      (checkProjectileHits jm now s rng).1.state.opponent.specialMeter =
          min 100 (s.opponent.specialMeter + METER_GAIN_ON_DAMAGE) ∧
      (checkProjectileHits jm now s rng).1.soundEvents =
          [SoundEvent.special]) ∧
    (∀ (jm : JsMath) (now : ℚ) (s : GameState) (rng : Rng),
      0 < s.opponent.hitStun →
      (checkHits jm now s rng).1.state.opponent.health = s.opponent.health ∧
      (checkHits jm now s rng).1.state.opponent.hitStun =
        s.opponent.hitStun ∧
      (checkHits jm now s rng).1.state.opponent.comboCount =
        s.opponent.comboCount ∧
      (checkHits jm now s rng).1.state.opponent.state = s.opponent.state) := by
  constructor
  · intro jm now s rng p hps howner hint hblock hstun
    simp only [checkProjectileHits, hps, List.foldl_cons, List.foldl_nil]
    simp only [projectileHitStep, howner]
    simp only [hint, if_true]
    simp [hblock]
  · intro jm now s rng hstun
    simp only [checkHits]
    set acc0 : MeleeAcc :=
      { state := s, newParticles := [], newPopups := [],
        soundEvents := [], rng := rng } with hacc0
    have e1 : meleePlayerBlock jm now acc0 = acc0 :=
      meleePlayerBlock_target_stunned jm now acc0 (by simpa [hacc0] using hstun)
    rw [e1]
    have e2 := meleeOpponentBlock_opponent_core jm now acc0
    have e3 := whiffPlayerBlock_state jm now (meleeOpponentBlock jm now acc0)
    have e4 := whiffOpponentBlock_state jm now
      (whiffPlayerBlock jm now (meleeOpponentBlock jm now acc0))
    simp only [e4, e3]
    obtain ⟨eh, es, ec, est, _, _, _⟩ := e2
    exact ⟨eh, es, ec, est⟩

/-- Projectile used by the C10 witness, overlapping the opponent. -/
def c10Projectile : Projectile :=
  { id := EntityId.proj 0 0, x := 950, y := GROUND_Y - 70, vx := 5,
    owner := Side.player, damage := 25, text := "WAVE", color := "#FF4444",
    life := 100 }

/-- State used by the C10 witness: the opponent is already in hit-stun
(25 ticks) and not blocking, with a player projectile on top of it. -/
def c10State : GameState :=
  { baseState with
      opponent := { baseState.opponent with hitStun := 25 }
      projectiles := [c10Projectile] }

/-- C10 witness: the projectile re-hits the stunned opponent (full
damage, stun reset to 25), while the melee pass leaves it untouched. -/
theorem c10_projectile_rehit_melee_stun_guard_witness :
    (checkProjectileHits jm0 0 c10State rngZero).1.state.opponent.hitStun = 25 ∧
    (checkProjectileHits jm0 0 c10State rngZero).1.state.opponent.state =
      FighterState.hit ∧
    (checkProjectileHits jm0 0 c10State rngZero).1.state.opponent.health =
      c10State.opponent.health - c10Projectile.damage ∧
    (checkHits jm0 0 c10State rngZero).1.state.opponent.health =
      c10State.opponent.health :=
  let h := c10_projectile_rehit_melee_stun_guard.1 jm0 0 c10State rngZero
    c10Projectile rfl rfl (by with_unfolding_all decide) rfl
    (by with_unfolding_all decide)
  let h2 := c10_projectile_rehit_melee_stun_guard.2 jm0 0 c10State rngZero
    (by with_unfolding_all decide)
  ⟨h.2.1, h.2.2.1, h.1, h2.1⟩

/-! ## More helper lemmas for the melee pass -/

lemma getAttackHitBox_congr (f g : Fighter) (a : Attack)
    (hp : f.position = g.position) (hf : f.facing = g.facing) :
    getAttackHitBox f a = getAttackHitBox g a := by
  simp [getAttackHitBox, hp, hf]

lemma getFighterHitBox_congr (f g : Fighter) (hp : f.position = g.position) :
    getFighterHitBox f = getFighterHitBox g := by
  simp [getFighterHitBox, hp]

lemma meleeOpponentBlock_noattack (jm : JsMath) (now : ℚ) (acc : MeleeAcc)
    (h : acc.state.opponent.currentAttack = none) :
    meleeOpponentBlock jm now acc = acc :=
  meleeOpponentBlock_inactive jm now acc (by simp [isAttackActive, h])

lemma whiffPlayerBlock_noattack (jm : JsMath) (now : ℚ) (acc : MeleeAcc)
    (h : acc.state.player.currentAttack = none) :
    whiffPlayerBlock jm now acc = acc := by
  simp [whiffPlayerBlock, h]

lemma whiffOpponentBlock_noattack (jm : JsMath) (now : ℚ) (acc : MeleeAcc)
    (h : acc.state.opponent.currentAttack = none) :
    whiffOpponentBlock jm now acc = acc := by
  simp [whiffOpponentBlock, h]

/-- The player's whiff block emits nothing while the attack box still
overlaps the target's body box. -/
lemma whiffPlayerBlock_intersect (jm : JsMath) (now : ℚ) (acc : MeleeAcc)
    (a : Attack) (h1 : acc.state.player.currentAttack = some a)
    (h2 : boxesIntersect (getAttackHitBox acc.state.player a)
      (getFighterHitBox acc.state.opponent) = true) :
    whiffPlayerBlock jm now acc = acc := by
  simp only [whiffPlayerBlock, h1]
  split_ifs <;> simp_all

/-! ## Claim C4: blocked-hit damage and knockback scaling -/

/-- Projectile used by the C4 counterexample (damage copied from the
test special attack, whose knockback stat is 20). -/
def c4Projectile : Projectile :=
  { id := EntityId.proj 0 0, x := 950, y := GROUND_Y - 70, vx := 5,
    owner := Side.player, damage := specialAttack.damage, text := "WAVE",
    color := "#FF4444", life := 100 }

/-- C4 counterexample state: blocking opponent under a player projectile. -/
def c4StateBlocking : GameState :=
  { baseState with
      opponent := { baseState.opponent with isBlocking := true }
      projectiles := [c4Projectile] }

/-- Same state with the block released (for the nominal-knockback run). -/
def c4StateOpen : GameState :=
  { baseState with projectiles := [c4Projectile] }

/-- C4 (counterexample). For projectiles the blocked knockback is not
30% of nominal, on any reading of "nominal": the blocked hit sets the
target's horizontal velocity to 5, while the unblocked hit sets it to
12 (so 30% would be 3.6), and the source attack's knockback stat is 20
(so 30% would be 6). The claim's "knockback ... exactly 30% of the
nominal knockback, regardless of attack type" is therefore false for
projectile hits. -/
theorem c4_blocked_scaling_counterexample :
    (checkProjectileHits jm0 0 c4StateBlocking
      rngZero).1.state.opponent.velocity.x = 5 ∧
    (checkProjectileHits jm0 0 c4StateOpen
      rngZero).1.state.opponent.velocity.x = 12 ∧
    (5 : ℚ) ≠ 0.3 * 12 ∧ (5 : ℚ) ≠ 0.3 * specialAttack.knockback := by
  with_unfolding_all decide

set_option maxRecDepth 4000 in
/-- C4 (amended). Blocked hits always take exactly 20% damage, set
`hitStun` to exactly 8, increment no combo and change neither fighter's
meter, and emit exactly one `block` sound — for melee and projectile
hits alike. The knockback differs by path: a blocked **melee** hit sets
the target's horizontal velocity to exactly 30% of the attack's
knockback (signed by the attacker's facing); a blocked **projectile**
hit sets it to a fixed 5 px/tick (signed by the projectile's direction),
independent of any knockback stat. (The opponent is assumed to have no
attack of its own in flight, isolating the single blocked connect.) -/
theorem c4_blocked_scaling_amended :
    (∀ (jm : JsMath) (now : ℚ) (s : GameState) (rng : Rng) (a : Attack),
      s.player.currentAttack = some a → isAttackActive s.player = true →
      s.opponent.hitStun ≤ 0 →
      boxesIntersect (getAttackHitBox s.player a)
        (getFighterHitBox s.opponent) = true →
      s.opponent.isBlocking = true → s.opponent.currentAttack = none →
      (checkHits jm now s rng).1.state.opponent.health =
          s.opponent.health - a.damage * 0.2 ∧
      (checkHits jm now s rng).1.state.opponent.velocity.x =
          (if s.player.facing = Facing.right then (1 : ℚ) else -1) *
            a.knockback * 0.3 ∧
      (checkHits jm now s rng).1.state.opponent.hitStun = 8 ∧
      (checkHits jm now s rng).1.state.opponent.comboCount =
          s.opponent.comboCount ∧
      (checkHits jm now s rng).1.state.player.specialMeter =
          s.player.specialMeter ∧
      (checkHits jm now s rng).1.state.opponent.specialMeter =
          s.opponent.specialMeter ∧
      (checkHits jm now s rng).1.soundEvents = [SoundEvent.block]) ∧
    (∀ (jm : JsMath) (now : ℚ) (s : GameState) (rng : Rng) (p : Projectile),
      s.projectiles = [p] → p.owner = Side.player →
      boxesIntersect (getProjectileHitBox p)
        (getFighterHitBox s.opponent) = true →
      s.opponent.isBlocking = true →
      (checkProjectileHits jm now s rng).1.state.opponent.health =
          s.opponent.health - p.damage * 0.2 ∧
      (checkProjectileHits jm now s rng).1.state.opponent.velocity.x =
          (if p.vx > 0 then (1 : ℚ) else -1) * 5 ∧
      (checkProjectileHits jm now s rng).1.state.opponent.hitStun = 8 ∧
      (checkProjectileHits jm now s rng).1.state.opponent.comboCount =
          s.opponent.comboCount ∧
      (checkProjectileHits jm now s rng).1.state.player.specialMeter =
          s.player.specialMeter ∧
      (checkProjectileHits jm now s rng).1.state.opponent.specialMeter =
          s.opponent.specialMeter ∧
      (checkProjectileHits jm now s rng).1.soundEvents =
          [SoundEvent.block]) := by
  constructor
  · intro jm now s rng a hcur hact hstun hint hbl hopp
    simp only [checkHits]
    set acc0 : MeleeAcc :=
      { state := s, newParticles := [], newPopups := [],
        soundEvents := [], rng := rng } with hacc0
    have hguard : (isAttackActive acc0.state.player &&
        decide (acc0.state.opponent.hitStun ≤ 0)) = true := by
      simp [hacc0, hact, hstun]
    have hfacts :
        (meleePlayerBlock jm now acc0).state.opponent.health =
            s.opponent.health - a.damage * 0.2 ∧
        (meleePlayerBlock jm now acc0).state.opponent.velocity.x =
            (if s.player.facing = Facing.right then (1 : ℚ) else -1) *
              a.knockback * 0.3 ∧
        (meleePlayerBlock jm now acc0).state.opponent.hitStun = 8 ∧
        (meleePlayerBlock jm now acc0).state.opponent.comboCount =
            s.opponent.comboCount ∧
        (meleePlayerBlock jm now acc0).state.player.specialMeter =
            s.player.specialMeter ∧
        (meleePlayerBlock jm now acc0).state.opponent.specialMeter =
            s.opponent.specialMeter ∧
        (meleePlayerBlock jm now acc0).soundEvents = [SoundEvent.block] ∧
        (meleePlayerBlock jm now acc0).state.opponent.currentAttack = none ∧
        (meleePlayerBlock jm now acc0).state.player.currentAttack = some a ∧
        (meleePlayerBlock jm now acc0).state.player.position =
            s.player.position ∧
        (meleePlayerBlock jm now acc0).state.player.facing =
            s.player.facing ∧
        (meleePlayerBlock jm now acc0).state.opponent.position =
            s.opponent.position := by
      simp only [meleePlayerBlock, hguard, if_true, hacc0, hcur]
      simp only [hint, if_true, hbl]
      simp [hopp, hcur]
    obtain ⟨f1, f2, f3, f4, f5, f6, f7, f8, f9, f10, f11, f12⟩ := hfacts
    have e2 : meleeOpponentBlock jm now (meleePlayerBlock jm now acc0) =
        meleePlayerBlock jm now acc0 :=
      meleeOpponentBlock_noattack jm now _ f8
    have hint2 : boxesIntersect
        (getAttackHitBox (meleePlayerBlock jm now acc0).state.player a)
        (getFighterHitBox (meleePlayerBlock jm now acc0).state.opponent) =
          true := by
      rw [getAttackHitBox_congr _ s.player a (by rw [f10]) (by rw [f11]),
        getFighterHitBox_congr _ s.opponent (by rw [f12])]
      exact hint
    have e3 : whiffPlayerBlock jm now (meleePlayerBlock jm now acc0) =
        meleePlayerBlock jm now acc0 :=
      whiffPlayerBlock_intersect jm now _ a f9 hint2
    have e4 : whiffOpponentBlock jm now (meleePlayerBlock jm now acc0) =
        meleePlayerBlock jm now acc0 :=
      whiffOpponentBlock_noattack jm now _ f8
    simp only [e2, e3, e4]
    exact ⟨f1, f2, f3, f4, f5, f6, f7⟩
  · intro jm now s rng p hps howner hint hbl
    simp only [checkProjectileHits, hps, List.foldl_cons, List.foldl_nil]
    simp only [projectileHitStep, howner]
    simp only [hint, if_true]
    simp [hbl]

/-- Melee-block state for the C4 witness: the player's punch is active
(frame 6 of window [5,10)) over a blocking, unstunned opponent. -/
def c4MeleeState : GameState :=
  { baseState with
      player := { baseState.player with
        state := FighterState.attacking
        currentAttack := some punchAttack
        stateFrame := 6 }
      opponent := { baseFighter 330 Facing.left with isBlocking := true } }

/-- C4 witness: blocked melee hit takes 20% damage with stun 8; blocked
projectile hit also sets stun 8. -/
theorem c4_blocked_scaling_amended_witness :
    (checkHits jm0 0 c4MeleeState rngZero).1.state.opponent.health =
      c4MeleeState.opponent.health - punchAttack.damage * 0.2 ∧
    (checkHits jm0 0 c4MeleeState rngZero).1.state.opponent.hitStun = 8 ∧
    (checkProjectileHits jm0 0 c4StateBlocking
      rngZero).1.state.opponent.hitStun = 8 :=
  let h := c4_blocked_scaling_amended.1 jm0 0 c4MeleeState rngZero punchAttack
    rfl (by with_unfolding_all decide) (by with_unfolding_all decide)
    (by with_unfolding_all decide) rfl rfl
  let h2 := c4_blocked_scaling_amended.2 jm0 0 c4StateBlocking rngZero
    c4Projectile rfl rfl (by with_unfolding_all decide) rfl
  ⟨h.1, h.2.2.1, h2.2.2.1⟩

/-! ## Claim C9: projectile spawning and advancing -/

/-- Projectile used by the C9 counterexample: one advance step lands it
at exactly `x = -100`, i.e. exactly 100px past the left arena edge, with
life still positive. -/
def c9Projectile : Projectile :=
  { id := EntityId.proj 0 0, x := -95, y := 436, vx := -5,
    owner := Side.opponent, damage := 10, text := "X", color := "#FFFFFF",
    life := 10 }

/-- C9 (counterexample). The claim says the advance step removes exactly
the projectiles with `life ≤ 0` or those that have left the arena bounds
by **more than** 100px. After one step this projectile sits at exactly
`x = -100` — exactly 100px out, not more — with `life = 9 > 0`, yet the
code removes it (the keep-condition is the strict `x > -100`). -/
theorem c9_projectile_rules_counterexample :
    updateProjectiles [c9Projectile] = [] ∧
    c9Projectile.x + c9Projectile.vx = -100 ∧
    c9Projectile.life - 1 = 9 ∧
    ¬ (c9Projectile.x + c9Projectile.vx < -100 ∨
      ARENA_WIDTH + 100 < c9Projectile.x + c9Projectile.vx) := by
  with_unfolding_all decide

/-- C9 (amended). Spawning places the projectile exactly 50px in front
of the firer (signed by facing), at `0.6 × FIGHTER_HEIGHT` above the
feet, with horizontal velocity exactly `±5` px/tick, life 180 and the
attack's damage; the advance step translates by the velocity, decrements
life by 1, and keeps exactly the projectiles with positive remaining
life that are strictly within 100px of the arena bounds (so a
projectile exactly 100px out is removed, amending the claim's "more
than 100px"). -/
theorem c9_projectile_rules_amended :
    (∀ (now : ℚ) (f : Fighter) (a : Attack) (o : Side) (t c : String)
      (rng : Rng),
      (createProjectile now f a o t c rng).1.x =
        f.position.x + (if f.facing = Facing.right then (1 : ℚ) else -1) * 50 ∧
      (createProjectile now f a o t c rng).1.y =
        f.position.y - FIGHTER_HEIGHT * 0.6 ∧
      (createProjectile now f a o t c rng).1.vx =
        PROJECTILE_SPEED * (if f.facing = Facing.right then (1 : ℚ) else -1) ∧
      (createProjectile now f a o t c rng).1.life = 180 ∧
      (createProjectile now f a o t c rng).1.damage = a.damage ∧
      (createProjectile now f a o t c rng).1.owner = o ∧
      (createProjectile now f a o t c rng).1.text = t ∧
      (createProjectile now f a o t c rng).1.color = c) ∧
    (∀ (ps : List Projectile) (q : Projectile),
      q ∈ updateProjectiles ps ↔
        ∃ p, p ∈ ps ∧ q = { p with x := p.x + p.vx, life := p.life - 1 } ∧
          0 < p.life - 1 ∧ -100 < p.x + p.vx ∧
          p.x + p.vx < ARENA_WIDTH + 100) := by
  constructor
  · intro now f a o t c rng
    simp [createProjectile, PROJECTILE_LIFE]
  · intro ps q
    simp only [updateProjectiles, List.mem_filter, List.mem_map]
    constructor
    · rintro ⟨⟨p, hp, rfl⟩, hcond⟩
      simp only [Bool.and_eq_true, decide_eq_true_eq] at hcond
      exact ⟨p, hp, rfl, hcond.1.1, hcond.1.2, hcond.2⟩
    · rintro ⟨p, hp, rfl, h1, h2, h3⟩
      refine ⟨⟨p, hp, rfl⟩, ?_⟩
      simp only [Bool.and_eq_true, decide_eq_true_eq]
      exact ⟨⟨h1, h2⟩, h3⟩

/-- C9 witness: the spawn rule at a concrete right-facing fighter, and
the advance rule at a concrete surviving projectile. -/
theorem c9_projectile_rules_amended_witness :
    (createProjectile 0 (baseFighter 250 Facing.right) specialAttack
      Side.player "WAVE" "#FF4444" rngZero).1.x =
      (baseFighter 250 Facing.right).position.x +
        (if (baseFighter 250 Facing.right).facing = Facing.right
          then (1 : ℚ) else -1) * 50 ∧
    (createProjectile 0 (baseFighter 250 Facing.right) specialAttack
      Side.player "WAVE" "#FF4444" rngZero).1.life = 180 ∧
    (c10Projectile ∈ updateProjectiles [c10Projectile] ↔
      ∃ p, p ∈ [c10Projectile] ∧
        c10Projectile = { p with x := p.x + p.vx, life := p.life - 1 } ∧
        0 < p.life - 1 ∧ -100 < p.x + p.vx ∧
        p.x + p.vx < ARENA_WIDTH + 100) :=
  ⟨(c9_projectile_rules_amended.1 0 (baseFighter 250 Facing.right)
      specialAttack Side.player "WAVE" "#FF4444" rngZero).1,
    (c9_projectile_rules_amended.1 0 (baseFighter 250 Facing.right)
      specialAttack Side.player "WAVE" "#FF4444" rngZero).2.2.2.1,
    c9_projectile_rules_amended.2 [c10Projectile] c10Projectile⟩

/-! ## Claim C5: the KO check -/

/-- C5. While the phase is `fighting`: (a) if the player's health is
≤ 0 — including the case where both healths are ≤ 0, since the player
is checked first — the KO block sets phase `ko`, winner `opponent`,
`slowMo = 0.1`, the winner's state to `victory` and the loser's to
`defeat`, camera `targetZoom = 1.3`, appends exactly one "K.O.!" popup
and emits exactly one `ko` sound; and because `slowMo` was just forced
to `0.1 < 0.95`, the subsequent ko-to-victory transition leaves the
phase at `ko` that same tick; (b) symmetrically for the opponent when
the player survives; (c) when the phase is not `fighting` (`intro`,
`ko`, `victory`), the KO block changes nothing and emits no sound — the
KO is never re-triggered. -/
theorem c5_ko_check :
    (∀ (now : ℚ) (s : GameState) (rng : Rng),
      s.gamePhase = GamePhase.fighting → s.player.health ≤ 0 →
      (checkKO now s rng).1.gamePhase = GamePhase.ko ∧
      (checkKO now s rng).1.winner = some Side.opponent ∧
      (checkKO now s rng).1.slowMo = 0.1 ∧
      (checkKO now s rng).1.opponent.state = FighterState.victory ∧
      (checkKO now s rng).1.player.state = FighterState.defeat ∧
      (checkKO now s rng).1.camera.targetZoom = 1.3 ∧
      (checkKO now s rng).2.1 = [SoundEvent.ko] ∧
      (∃ popup, (checkKO now s rng).1.textPopups = s.textPopups ++ [popup] ∧
        popup.text = "K.O.!" ∧ popup.type = PopupType.ko) ∧
      (koToVictory (checkKO now s rng).1).1.gamePhase = GamePhase.ko) ∧
    (∀ (now : ℚ) (s : GameState) (rng : Rng),
      s.gamePhase = GamePhase.fighting → 0 < s.player.health →
      s.opponent.health ≤ 0 →
      (checkKO now s rng).1.gamePhase = GamePhase.ko ∧
      (checkKO now s rng).1.winner = some Side.player ∧
      (checkKO now s rng).1.slowMo = 0.1 ∧
      (checkKO now s rng).1.player.state = FighterState.victory ∧
      (checkKO now s rng).1.opponent.state = FighterState.defeat ∧
      (checkKO now s rng).1.camera.targetZoom = 1.3 ∧
      (checkKO now s rng).2.1 = [SoundEvent.ko] ∧
      (∃ popup, (checkKO now s rng).1.textPopups = s.textPopups ++ [popup] ∧
        popup.text = "K.O.!" ∧ popup.type = PopupType.ko) ∧
      (koToVictory (checkKO now s rng).1).1.gamePhase = GamePhase.ko) ∧
    (∀ (now : ℚ) (s : GameState) (rng : Rng),
      s.gamePhase ≠ GamePhase.fighting →
      (checkKO now s rng).1 = s ∧ (checkKO now s rng).2.1 = []) := by
  refine ⟨?_, ?_, ?_⟩
  · intro now s rng hphase hhp
    have hcond : s.player.health ≤ 0 ∧ s.gamePhase = GamePhase.fighting :=
      ⟨hhp, hphase⟩
    simp only [checkKO, if_pos hcond]
    refine ⟨by trivial, by trivial, by trivial, by trivial, by trivial,
      by trivial, by trivial, ?_, ?_⟩
    · exact ⟨(createHitPopup now "K.O.!" 600 250 PopupType.ko rng).1,
        rfl, rfl, rfl⟩
    · norm_num [koToVictory]
  · intro now s rng hphase hhp hho
    have hnc : ¬ (s.player.health ≤ 0 ∧ s.gamePhase = GamePhase.fighting) := by
      intro h
      exact absurd h.1 (not_le.mpr hhp)
    have hcond : s.opponent.health ≤ 0 ∧ s.gamePhase = GamePhase.fighting :=
      ⟨hho, hphase⟩
    simp only [checkKO, if_neg hnc, if_pos hcond]
    refine ⟨by trivial, by trivial, by trivial, by trivial, by trivial,
      by trivial, by trivial, ?_, ?_⟩
    · exact ⟨(createHitPopup now "K.O.!" 600 250 PopupType.ko rng).1,
        rfl, rfl, rfl⟩
    · norm_num [koToVictory]
  · intro now s rng hphase
    have h1 : ¬ (s.player.health ≤ 0 ∧ s.gamePhase = GamePhase.fighting) :=
      fun h => hphase h.2
    have h2 : ¬ (s.opponent.health ≤ 0 ∧ s.gamePhase = GamePhase.fighting) :=
      fun h => hphase h.2
    simp [checkKO, h1, h2]

/-- C5 witness: a fighting-phase state in which both fighters' health
are ≤ 0 — the player is checked first, so the opponent wins; and a
ko-phase state is untouched. -/
theorem c5_ko_check_witness :
    (checkKO 0 { baseState with
        player := { baseState.player with health := 0 }
        opponent := { baseState.opponent with health := -5 } }
      rngZero).1.winner = some Side.opponent ∧
    (checkKO 0 { baseState with gamePhase := GamePhase.ko }
      rngZero).2.1 = [] :=
  ⟨(c5_ko_check.1 0 _ rngZero rfl (by with_unfolding_all decide)).2.1,
    (c5_ko_check.2.2 0 _ rngZero (by with_unfolding_all decide)).2⟩

/-- The player's melee block moves nobody and never clears the current
attacks: both fighters' positions, the player's facing and state, and
both `currentAttack` fields are unchanged (only `stateFrame` is retired
on connect). -/
lemma meleePlayerBlock_geometry (jm : JsMath) (now : ℚ) (acc : MeleeAcc) :
    (meleePlayerBlock jm now acc).state.player.position =
        acc.state.player.position ∧
    (meleePlayerBlock jm now acc).state.player.facing =
        acc.state.player.facing ∧
    (meleePlayerBlock jm now acc).state.player.currentAttack =
        acc.state.player.currentAttack ∧
    (meleePlayerBlock jm now acc).state.player.state =
        acc.state.player.state ∧
    (meleePlayerBlock jm now acc).state.opponent.position =
        acc.state.opponent.position ∧
    (meleePlayerBlock jm now acc).state.opponent.currentAttack =
        acc.state.opponent.currentAttack := by
  rcases hopt : acc.state.player.currentAttack with _ | attack <;>
    simp only [meleePlayerBlock, hopt] <;> split_ifs <;> simp [hopt]

/-- The player's melee block appends no `whiff` sound. -/
lemma meleePlayerBlock_sounds (jm : JsMath) (now : ℚ) (acc : MeleeAcc) :
    ∃ tail, (meleePlayerBlock jm now acc).soundEvents =
      acc.soundEvents ++ tail ∧ SoundEvent.whiff ∉ tail := by
  rcases hopt : acc.state.player.currentAttack with _ | attack <;>
    simp only [meleePlayerBlock, hopt] <;> split_ifs <;>
    first
      | exact ⟨[], (List.append_nil _).symm, by simp⟩
      | (refine ⟨_, rfl, ?_⟩ <;> simp)

/-! ## Claim C8: whiff detection at the end of the active window -/

/-- C8 counterexample state: the player's punch has just ended its
active window (`stateFrame = startup + active = 10`) point-blank against
an opponent who sat in projectile hit-stun (25 ticks) the whole time, so
no melee hit was ever registered for this swing. -/
def c8State : GameState :=
  { baseState with
      player := { baseState.player with
        state := FighterState.attacking
        currentAttack := some punchAttack
        stateFrame := 10 }
      opponent := { baseFighter 330 Facing.left with
        hitStun := 25, state := FighterState.hit } }

/-- C8 (counterexample). The claim says that at the tick the active
window ends, dust particles and a `whiff` sound are emitted whenever no
hit was registered during the attack instance. Here no hit registered
(the target's 25-tick hit-stun blanketed the whole 10-tick window and
still blocks melee registration this tick, as the health conjunct
shows), yet the code emits neither particles nor a sound, because its
whiff test is geometric — it fires only if the boxes do *not* currently
intersect, and at point-blank they do. -/
theorem c8_whiff_counterexample :
    c8State.player.stateFrame = punchAttack.startup + punchAttack.active ∧
    c8State.opponent.hitStun = 25 ∧
    boxesIntersect (getAttackHitBox c8State.player punchAttack)
      (getFighterHitBox c8State.opponent) = true ∧
    (checkHits jm0 0 c8State rngZero).1.state.opponent.health =
      c8State.opponent.health ∧
    (checkHits jm0 0 c8State rngZero).1.soundEvents = [] ∧
    (checkHits jm0 0 c8State rngZero).1.newParticles = [] := by
  with_unfolding_all decide

set_option maxRecDepth 4000 in
/-- C8 (amended). The whiff test is geometric, not history-based: with
the opponent idle (no attack of its own), at the exact tick the player's
active window ends (`stateFrame = startup + active`, still `attacking`),
(a) if the attack box does **not** intersect the target's body box, the
melee pass emits exactly one `whiff` sound and exactly the five dust
particles of `createWhiffParticles` at the attack-box center; (b) if the
boxes do intersect, nothing is emitted — even if no hit was ever
registered (see the counterexample); and (c) an attack that connects
never whiffs: on the connect tick the forced retirement sets
`stateFrame = startup + active` while the boxes still intersect
(positions are unchanged within the pass), so the whiff block stays
silent. -/
theorem c8_whiff_geometry :
    (∀ (jm : JsMath) (now : ℚ) (s : GameState) (rng : Rng) (a : Attack),
      s.player.currentAttack = some a →
      s.player.state = FighterState.attacking →
      s.player.stateFrame = a.startup + a.active →
      s.opponent.currentAttack = none →
      (boxesIntersect (getAttackHitBox s.player a)
          (getFighterHitBox s.opponent) = false →
        (checkHits jm now s rng).1.soundEvents = [SoundEvent.whiff] ∧
        (checkHits jm now s rng).1.newParticles =
          (createWhiffParticles jm now
            ((getAttackHitBox s.player a).x +
              (getAttackHitBox s.player a).width / 2)
            ((getAttackHitBox s.player a).y +
              (getAttackHitBox s.player a).height / 2) rng).1) ∧
      (boxesIntersect (getAttackHitBox s.player a)
          (getFighterHitBox s.opponent) = true →
        (checkHits jm now s rng).1.soundEvents = [] ∧
        (checkHits jm now s rng).1.newParticles = [])) ∧
    (∀ (jm : JsMath) (now : ℚ) (s : GameState) (rng : Rng) (a : Attack),
      s.player.currentAttack = some a →
      isAttackActive s.player = true → s.opponent.hitStun ≤ 0 →
      boxesIntersect (getAttackHitBox s.player a)
        (getFighterHitBox s.opponent) = true →
      s.opponent.currentAttack = none →
      SoundEvent.whiff ∉ (checkHits jm now s rng).1.soundEvents) := by
  constructor
  · intro jm now s rng a hcur hst hframe hopp
    have hact : isAttackActive s.player = false := by
      simp only [isAttackActive, hcur]
      split_ifs <;> simp_all
    constructor
    · intro hnint
      simp only [checkHits]
      set acc0 : MeleeAcc :=
        { state := s, newParticles := [], newPopups := [],
          soundEvents := [], rng := rng } with hacc0
      have e1 : meleePlayerBlock jm now acc0 = acc0 :=
        meleePlayerBlock_inactive jm now acc0 (by simpa [hacc0] using hact)
      have e2 : meleeOpponentBlock jm now acc0 = acc0 :=
        meleeOpponentBlock_noattack jm now acc0 (by simpa [hacc0] using hopp)
      rw [e1, e2]
      have e3 : whiffPlayerBlock jm now acc0 =
          { acc0 with
              newParticles := acc0.newParticles ++
                (createWhiffParticles jm now
                  ((getAttackHitBox s.player a).x +
                    (getAttackHitBox s.player a).width / 2)
                  ((getAttackHitBox s.player a).y +
                    (getAttackHitBox s.player a).height / 2) acc0.rng).1
              soundEvents := acc0.soundEvents ++ [SoundEvent.whiff]
              rng := (createWhiffParticles jm now
                  ((getAttackHitBox s.player a).x +
                    (getAttackHitBox s.player a).width / 2)
                  ((getAttackHitBox s.player a).y +
                    (getAttackHitBox s.player a).height / 2) acc0.rng).2 } := by
        simp only [whiffPlayerBlock, hacc0, hcur, hst, hframe]
        simp [hnint]
      rw [e3]
      have e4 : whiffOpponentBlock jm now
          ({ acc0 with
              newParticles := acc0.newParticles ++
                (createWhiffParticles jm now
                  ((getAttackHitBox s.player a).x +
                    (getAttackHitBox s.player a).width / 2)
                  ((getAttackHitBox s.player a).y +
                    (getAttackHitBox s.player a).height / 2) acc0.rng).1
              soundEvents := acc0.soundEvents ++ [SoundEvent.whiff]
              rng := (createWhiffParticles jm now
                  ((getAttackHitBox s.player a).x +
                    (getAttackHitBox s.player a).width / 2)
                  ((getAttackHitBox s.player a).y +
                    (getAttackHitBox s.player a).height / 2) acc0.rng).2 } : MeleeAcc) =
          { acc0 with
              newParticles := acc0.newParticles ++
                (createWhiffParticles jm now
                  ((getAttackHitBox s.player a).x +
                    (getAttackHitBox s.player a).width / 2)
                  ((getAttackHitBox s.player a).y +
                    (getAttackHitBox s.player a).height / 2) acc0.rng).1
              soundEvents := acc0.soundEvents ++ [SoundEvent.whiff]
              rng := (createWhiffParticles jm now
                  ((getAttackHitBox s.player a).x +
                    (getAttackHitBox s.player a).width / 2)
                  ((getAttackHitBox s.player a).y +
                    (getAttackHitBox s.player a).height / 2) acc0.rng).2 } :=
        whiffOpponentBlock_noattack jm now _ (by simpa [hacc0] using hopp)
      rw [e4]
      simp [hacc0]
    · intro hint
      simp only [checkHits]
      set acc0 : MeleeAcc :=
        { state := s, newParticles := [], newPopups := [],
          soundEvents := [], rng := rng } with hacc0
      have e1 : meleePlayerBlock jm now acc0 = acc0 :=
        meleePlayerBlock_inactive jm now acc0 (by simpa [hacc0] using hact)
      have e2 : meleeOpponentBlock jm now acc0 = acc0 :=
        meleeOpponentBlock_noattack jm now acc0 (by simpa [hacc0] using hopp)
      have e3 : whiffPlayerBlock jm now acc0 = acc0 :=
        whiffPlayerBlock_intersect jm now acc0 a (by simpa [hacc0] using hcur)
          (by simpa [hacc0] using hint)
      have e4 : whiffOpponentBlock jm now acc0 = acc0 :=
        whiffOpponentBlock_noattack jm now acc0 (by simpa [hacc0] using hopp)
      rw [e1, e2, e3, e4]
      simp [hacc0]
  · intro jm now s rng a hcur hact hstun hint hopp
    simp only [checkHits]
    set acc0 : MeleeAcc :=
      { state := s, newParticles := [], newPopups := [],
        soundEvents := [], rng := rng } with hacc0
    obtain ⟨g1, g2, g3, g4, g5, g6⟩ := meleePlayerBlock_geometry jm now acc0
    have e2 : meleeOpponentBlock jm now (meleePlayerBlock jm now acc0) =
        meleePlayerBlock jm now acc0 :=
      meleeOpponentBlock_noattack jm now _ (by rw [g6]; simpa [hacc0] using hopp)
    have hint2 : boxesIntersect
        (getAttackHitBox (meleePlayerBlock jm now acc0).state.player a)
        (getFighterHitBox (meleePlayerBlock jm now acc0).state.opponent) =
          true := by
      rw [getAttackHitBox_congr _ s.player a (by rw [g1]) (by rw [g2]),
        getFighterHitBox_congr _ s.opponent (by rw [g5])]
      exact hint
    have e3 : whiffPlayerBlock jm now (meleePlayerBlock jm now acc0) =
        meleePlayerBlock jm now acc0 :=
      whiffPlayerBlock_intersect jm now _ a
        (by rw [g3]; simpa [hacc0] using hcur) hint2
    have e4 : whiffOpponentBlock jm now (meleePlayerBlock jm now acc0) =
        meleePlayerBlock jm now acc0 :=
      whiffOpponentBlock_noattack jm now _ (by rw [g6]; simpa [hacc0] using hopp)
    rw [e2, e3, e4]
    obtain ⟨tail, htail, hwh⟩ := meleePlayerBlock_sounds jm now acc0
    intro hmem
    rw [htail] at hmem
    rcases List.mem_append.mp hmem with h | h
    · simp [hacc0] at h
    · exact hwh h

/-- C8 witness state: the punch's active window ends with the opponent
far out of reach. -/
def c8WhiffState : GameState :=
  { baseState with
      player := { baseState.player with
        state := FighterState.attacking
        currentAttack := some punchAttack
        stateFrame := 10 } }

/-- C8 witness: an out-of-range end-of-window tick emits exactly one
whiff sound, while a connecting swing (the blocked punch of the C4
witness state) never does. -/
theorem c8_whiff_geometry_witness :
    (checkHits jm0 0 c8WhiffState rngZero).1.soundEvents =
      [SoundEvent.whiff] ∧
    SoundEvent.whiff ∉ (checkHits jm0 0 c4MeleeState rngZero).1.soundEvents :=
  ⟨((c8_whiff_geometry.1 jm0 0 c8WhiffState rngZero punchAttack rfl rfl
      (by with_unfolding_all decide) rfl).1
      (by with_unfolding_all decide)).1,
    c8_whiff_geometry.2 jm0 0 c4MeleeState rngZero punchAttack rfl
      (by with_unfolding_all decide) (by with_unfolding_all decide)
      (by with_unfolding_all decide) rfl⟩

/-! ## Helper lemmas for the special-meter accounting -/

/-- Both fighters' meters sit in the legal `[0, 100]` band. -/
def meterInRange (s : GameState) : Prop :=
  0 ≤ s.player.specialMeter ∧ s.player.specialMeter ≤ 100 ∧
    0 ≤ s.opponent.specialMeter ∧ s.opponent.specialMeter ≤ 100

lemma fighterHitstunStep_specialMeter (f : Fighter) (ts : ℚ) :
    (fighterHitstunStep f ts).specialMeter = f.specialMeter := by
  simp only [fighterHitstunStep]; split_ifs <;> rfl

/-- The input chain spends exactly the special-meter cost when (and only
when) it signals a projectile spawn, and the cost is affordable. -/
lemma fighterInputAttack_spawn (f : Fighter) (input : InputState)
    (attacks : AttackSet) (ts : ℚ) :
    ((fighterInputAttack f input attacks ts).2 = true →
      SPECIAL_METER_COST ≤ f.specialMeter ∧
      (fighterInputAttack f input attacks ts).1.specialMeter =
        f.specialMeter - SPECIAL_METER_COST) ∧
    ((fighterInputAttack f input attacks ts).2 = false →
      (fighterInputAttack f input attacks ts).1.specialMeter =
        f.specialMeter) := by
  simp only [fighterInputAttack]
  split_ifs with h1 h2 h3 h4 <;> simp_all

lemma meleePlayerBlock_meters (jm : JsMath) (now : ℚ) (acc : MeleeAcc)
    (hp : acc.state.player.specialMeter ≤ 100)
    (ho : acc.state.opponent.specialMeter ≤ 100) :
    acc.state.player.specialMeter ≤
        (meleePlayerBlock jm now acc).state.player.specialMeter ∧
    (meleePlayerBlock jm now acc).state.player.specialMeter ≤ 100 ∧
    acc.state.opponent.specialMeter ≤
        (meleePlayerBlock jm now acc).state.opponent.specialMeter ∧
    (meleePlayerBlock jm now acc).state.opponent.specialMeter ≤ 100 := by
  rcases hopt : acc.state.player.currentAttack with _ | attack <;>
    simp only [meleePlayerBlock, hopt, METER_GAIN_ON_HIT,
      METER_GAIN_ON_DAMAGE] <;>
    split_ifs <;>
    refine ⟨?_, ?_, ?_, ?_⟩ <;>
    simp_all <;>
    first
      | linarith
      | exact le_min (by linarith) (by linarith)
      | exact min_le_left _ _

lemma meleeOpponentBlock_meters (jm : JsMath) (now : ℚ) (acc : MeleeAcc)
    (hp : acc.state.player.specialMeter ≤ 100)
    (ho : acc.state.opponent.specialMeter ≤ 100) :
    acc.state.player.specialMeter ≤
        (meleeOpponentBlock jm now acc).state.player.specialMeter ∧
    (meleeOpponentBlock jm now acc).state.player.specialMeter ≤ 100 ∧
    acc.state.opponent.specialMeter ≤
        (meleeOpponentBlock jm now acc).state.opponent.specialMeter ∧
    (meleeOpponentBlock jm now acc).state.opponent.specialMeter ≤ 100 := by
  rcases hopt : acc.state.opponent.currentAttack with _ | attack <;>
    simp only [meleeOpponentBlock, hopt, METER_GAIN_ON_HIT,
      METER_GAIN_ON_DAMAGE] <;>
    split_ifs <;>
    refine ⟨?_, ?_, ?_, ?_⟩ <;>
    simp_all <;>
    first
      | linarith
      | exact le_min (by linarith) (by linarith)
      | exact min_le_left _ _

lemma projectileHitStep_meters (jm : JsMath) (now : ℚ) (acc : ProjHitAcc)
    (p : Projectile)
    (hp : acc.state.player.specialMeter ≤ 100)
    (ho : acc.state.opponent.specialMeter ≤ 100) :
    acc.state.player.specialMeter ≤
        (projectileHitStep jm now acc p).state.player.specialMeter ∧
    (projectileHitStep jm now acc p).state.player.specialMeter ≤ 100 ∧
    acc.state.opponent.specialMeter ≤
        (projectileHitStep jm now acc p).state.opponent.specialMeter ∧
    (projectileHitStep jm now acc p).state.opponent.specialMeter ≤ 100 := by
  rcases howner : p.owner with _ | _ <;>
    simp only [projectileHitStep, howner, METER_GAIN_ON_HIT,
      METER_GAIN_ON_DAMAGE] <;>
    split_ifs <;>
    refine ⟨?_, ?_, ?_, ?_⟩ <;>
    simp_all <;>
    first
      | linarith
      | exact le_min (by linarith) (by linarith)
      | exact min_le_left _ _

lemma projectileFold_meters (jm : JsMath) (now : ℚ) (ps : List Projectile) :
    ∀ acc : ProjHitAcc, acc.state.player.specialMeter ≤ 100 →
      acc.state.opponent.specialMeter ≤ 100 →
      acc.state.player.specialMeter ≤
          (ps.foldl (projectileHitStep jm now) acc).state.player.specialMeter ∧
      (ps.foldl (projectileHitStep jm now) acc).state.player.specialMeter ≤
          100 ∧
      acc.state.opponent.specialMeter ≤
          (ps.foldl (projectileHitStep jm now) acc).state.opponent.specialMeter ∧
      (ps.foldl (projectileHitStep jm now)
          acc).state.opponent.specialMeter ≤ 100 := by
  induction ps with
  | nil => intro acc hp ho; exact ⟨le_refl _, hp, le_refl _, ho⟩
  | cons p ps ih =>
    intro acc hp ho
    obtain ⟨s1, s2, s3, s4⟩ := projectileHitStep_meters jm now acc p hp ho
    obtain ⟨t1, t2, t3, t4⟩ := ih (projectileHitStep jm now acc p) s2 s4
    exact ⟨s1.trans t1, t2, s3.trans t3, t4⟩

lemma whiffPlayerBlock_meters (jm : JsMath) (now : ℚ) (acc : MeleeAcc) :
    (whiffPlayerBlock jm now acc).state.player.specialMeter =
        acc.state.player.specialMeter ∧
    (whiffPlayerBlock jm now acc).state.opponent.specialMeter =
        acc.state.opponent.specialMeter := by
  rw [whiffPlayerBlock_state]; exact ⟨rfl, rfl⟩

lemma whiffOpponentBlock_meters (jm : JsMath) (now : ℚ) (acc : MeleeAcc) :
    (whiffOpponentBlock jm now acc).state.player.specialMeter =
        acc.state.player.specialMeter ∧
    (whiffOpponentBlock jm now acc).state.opponent.specialMeter =
        acc.state.opponent.specialMeter := by
  rw [whiffOpponentBlock_state]; exact ⟨rfl, rfl⟩

/-- The melee pass only ever raises each fighter's meter, and keeps it
capped at 100. -/
lemma checkHits_meters (jm : JsMath) (now : ℚ) (s : GameState) (rng : Rng)
    (hp : s.player.specialMeter ≤ 100)
    (ho : s.opponent.specialMeter ≤ 100) :
    s.player.specialMeter ≤
        (checkHits jm now s rng).1.state.player.specialMeter ∧
    (checkHits jm now s rng).1.state.player.specialMeter ≤ 100 ∧
    s.opponent.specialMeter ≤
        (checkHits jm now s rng).1.state.opponent.specialMeter ∧
    (checkHits jm now s rng).1.state.opponent.specialMeter ≤ 100 := by
  simp only [checkHits]
  set acc0 : MeleeAcc :=
    { state := s, newParticles := [], newPopups := [],
      soundEvents := [], rng := rng } with hacc0
  obtain ⟨a1, a2, a3, a4⟩ := meleePlayerBlock_meters jm now acc0 hp ho
  obtain ⟨b1, b2, b3, b4⟩ :=
    meleeOpponentBlock_meters jm now (meleePlayerBlock jm now acc0) a2 a4
  obtain ⟨c1, c2⟩ := whiffPlayerBlock_meters jm now
    (meleeOpponentBlock jm now (meleePlayerBlock jm now acc0))
  obtain ⟨d1, d2⟩ := whiffOpponentBlock_meters jm now
    (whiffPlayerBlock jm now
      (meleeOpponentBlock jm now (meleePlayerBlock jm now acc0)))
  rw [d1, d2, c1, c2]
  exact ⟨a1.trans b1, b2, a3.trans b3, b4⟩

/-- The projectile pass only ever raises each fighter's meter, and keeps
it capped at 100. -/
lemma checkProjectileHits_meters (jm : JsMath) (now : ℚ) (s : GameState)
    (rng : Rng) (hp : s.player.specialMeter ≤ 100)
    (ho : s.opponent.specialMeter ≤ 100) :
    s.player.specialMeter ≤
        (checkProjectileHits jm now s rng).1.state.player.specialMeter ∧
    (checkProjectileHits jm now s rng).1.state.player.specialMeter ≤ 100 ∧
    s.opponent.specialMeter ≤
        (checkProjectileHits jm now s rng).1.state.opponent.specialMeter ∧
    (checkProjectileHits jm now s rng).1.state.opponent.specialMeter ≤
        100 := by
  simp only [checkProjectileHits]
  exact projectileFold_meters jm now s.projectiles
    { state := s, newParticles := [], newPopups := [],
      soundEvents := [], toRemove := [], rng := rng } hp ho

lemma faceEachOther_meters (s : GameState) :
    (faceEachOther s).player.specialMeter = s.player.specialMeter ∧
    (faceEachOther s).opponent.specialMeter = s.opponent.specialMeter := by
  simp only [faceEachOther]; split_ifs <;> simp

lemma checkKO_meters (now : ℚ) (s : GameState) (rng : Rng) :
    (checkKO now s rng).1.player.specialMeter = s.player.specialMeter ∧
    (checkKO now s rng).1.opponent.specialMeter =
      s.opponent.specialMeter := by
  simp only [checkKO]; split_ifs <;> simp

lemma koToVictory_meters (s : GameState) :
    (koToVictory s).1.player.specialMeter = s.player.specialMeter ∧
    (koToVictory s).1.opponent.specialMeter = s.opponent.specialMeter := by
  simp only [koToVictory]; split_ifs <;> simp

lemma slowMoDecay_fighters (s : GameState) :
    (slowMoDecay s).player = s.player ∧
    (slowMoDecay s).opponent = s.opponent := by
  simp only [slowMoDecay]; split_ifs <;> simp

/-- `updateFighter` spends exactly `SPECIAL_METER_COST` when it signals
a projectile spawn — only possible with at least that much meter — and
leaves the meter untouched otherwise. -/
lemma updateFighter_meter (f : Fighter) (input : InputState)
    (attacks : AttackSet) (ts : ℚ) (phase : GamePhase) :
    ((updateFighter f input attacks ts phase).spawnedSpecial = true →
      SPECIAL_METER_COST ≤ f.specialMeter ∧
      (updateFighter f input attacks ts phase).fighter.specialMeter =
        f.specialMeter - SPECIAL_METER_COST) ∧
    ((updateFighter f input attacks ts phase).spawnedSpecial = false →
      (updateFighter f input attacks ts phase).fighter.specialMeter =
        f.specialMeter) := by
  by_cases hph : phase = GamePhase.intro ∨ phase = GamePhase.victory ∨
      phase = GamePhase.ko
  · simp [updateFighter, hph]
  · simp only [updateFighter, if_neg hph]
    by_cases hca : fighterCanAct (fighterHitstunStep f ts) = true
    · simp only [hca, if_true, fighterActStep]
      simp only [fighterPhysicsStep_specialMeter,
        fighterMoveBlock_specialMeter]
      obtain ⟨w1, w2⟩ := fighterInputAttack_spawn
        (fighterResetAttack (fighterHitstunStep f ts)) input attacks ts
      rw [fighterResetAttack_specialMeter, fighterHitstunStep_specialMeter]
        at w1 w2
      exact ⟨w1, w2⟩
    · simp only [hca]
      simp [fighterPhysicsStep_specialMeter, fighterHitstunStep_specialMeter]

lemma updateFighter_meter_range (f : Fighter) (input : InputState)
    (attacks : AttackSet) (ts : ℚ) (phase : GamePhase)
    (h0 : 0 ≤ f.specialMeter) (h100 : f.specialMeter ≤ 100) :
    0 ≤ (updateFighter f input attacks ts phase).fighter.specialMeter ∧
    (updateFighter f input attacks ts phase).fighter.specialMeter ≤ 100 := by
  obtain ⟨w1, w2⟩ := updateFighter_meter f input attacks ts phase
  have hcost : (0 : ℚ) ≤ SPECIAL_METER_COST := by
    norm_num [SPECIAL_METER_COST]
  cases hsp : (updateFighter f input attacks ts phase).spawnedSpecial with
  | true =>
    obtain ⟨hge, heq⟩ := w1 hsp
    rw [heq]
    constructor <;> linarith
  | false =>
    rw [w2 hsp]
    exact ⟨h0, h100⟩

lemma fighterPhase_meters (now : ℚ) (state : GameState)
    (playerInput : InputState) (pa oa : AttackSet) (mode : GameMode)
    (ri : Option InputState) (pt ot : String) (rng : Rng)
    (h : meterInRange state) :
    meterInRange
      (fighterPhase now state playerInput pa oa mode ri pt ot rng).1 := by
  obtain ⟨h1, h2, h3, h4⟩ := h
  obtain ⟨e1, e2⟩ := slowMoDecay_fighters state
  simp only [fighterPhase, meterInRange]
  obtain ⟨p1, p2⟩ := updateFighter_meter_range (slowMoDecay state).player
    playerInput pa state.slowMo (slowMoDecay state).gamePhase
    (by rw [e1]; exact h1) (by rw [e1]; exact h2)
  obtain ⟨q1, q2⟩ := updateFighter_meter_range (slowMoDecay state).opponent
    (chooseOpponentInput
      { slowMoDecay state with
          player := (updateFighter (slowMoDecay state).player playerInput pa
            state.slowMo (slowMoDecay state).gamePhase).fighter }
      mode ri
      (spawnPlayerSpecial now
        { slowMoDecay state with
            player := (updateFighter (slowMoDecay state).player playerInput pa
              state.slowMo (slowMoDecay state).gamePhase).fighter }
        pa pt
        (updateFighter (slowMoDecay state).player playerInput pa
          state.slowMo (slowMoDecay state).gamePhase).spawnedSpecial
        rng).2.2).1
    oa state.slowMo (slowMoDecay state).gamePhase
    (by rw [e2]; exact h3) (by rw [e2]; exact h4)
  exact ⟨p1, p2, q1, q2⟩

lemma combatPhase_meters (jm : JsMath) (now : ℚ) (state : GameState)
    (newProjectiles : List Projectile) (rng : Rng)
    (h : meterInRange state) :
    meterInRange (combatPhase jm now state newProjectiles rng).1 := by
  obtain ⟨h1, h2, h3, h4⟩ := h
  obtain ⟨f1, f2⟩ := faceEachOther_meters state
  simp only [combatPhase, meterInRange, absorbCombatResult]
  obtain ⟨a1, a2, a3, a4⟩ := checkProjectileHits_meters jm now
    { faceEachOther state with
        projectiles := updateProjectiles
          ((faceEachOther state).projectiles ++ newProjectiles) }
    rng (by simpa [f1] using h2) (by simpa [f2] using h4)
  obtain ⟨b1, b2, b3, b4⟩ := checkHits_meters jm now
    (absorbCombatResult
      (checkProjectileHits jm now
        { faceEachOther state with
            projectiles := updateProjectiles
              ((faceEachOther state).projectiles ++ newProjectiles) }
        rng).1)
    (checkProjectileHits jm now
      { faceEachOther state with
          projectiles := updateProjectiles
            ((faceEachOther state).projectiles ++ newProjectiles) }
      rng).2
    (by simpa [absorbCombatResult] using a2)
    (by simpa [absorbCombatResult] using a4)
  simp only [absorbCombatResult] at b1 b2 b3 b4
  refine ⟨?_, b2, ?_, b4⟩
  · have : (0 : ℚ) ≤
        (checkProjectileHits jm now
          { faceEachOther state with
              projectiles := updateProjectiles
                ((faceEachOther state).projectiles ++ newProjectiles) }
          rng).1.state.player.specialMeter := by
      refine le_trans ?_ a1
      simpa [f1] using h1
    exact le_trans this b1
  · have : (0 : ℚ) ≤
        (checkProjectileHits jm now
          { faceEachOther state with
              projectiles := updateProjectiles
                ((faceEachOther state).projectiles ++ newProjectiles) }
          rng).1.state.opponent.specialMeter := by
      refine le_trans ?_ a3
      simpa [f2] using h3
    exact le_trans this b3

lemma endPhase_meters (now : ℚ) (state : GameState) (rng : Rng)
    (h : meterInRange state) :
    meterInRange (endPhase now state rng).1 := by
  obtain ⟨h1, h2, h3, h4⟩ := h
  obtain ⟨k1, k2⟩ := checkKO_meters now state rng
  obtain ⟨v1, v2⟩ := koToVictory_meters (checkKO now state rng).1
  simp only [endPhase, meterInRange]
  rw [v1, v2, k1, k2]
  exact ⟨h1, h2, h3, h4⟩

/-! ## Claim C6: special-meter accounting -/

/-- C6. (i) Within a tick, `updateFighter` changes a fighter's meter
only at the instant a special is executed, where it drops by exactly
`SPECIAL_METER_COST = 50` and the pre-meter is necessarily ≥ 50;
(ii) the two hit passes only ever raise the meters, and cap them at
100; (iii) consequently a full `updateGameState` tick keeps both
fighters' meters inside `[0, 100]`. -/
theorem c6_meter_accounting :
    (∀ (f : Fighter) (input : InputState) (attacks : AttackSet) (ts : ℚ)
        (phase : GamePhase),
      ((updateFighter f input attacks ts phase).spawnedSpecial = true →
        SPECIAL_METER_COST ≤ f.specialMeter ∧
        (updateFighter f input attacks ts phase).fighter.specialMeter =
          f.specialMeter - SPECIAL_METER_COST) ∧
      ((updateFighter f input attacks ts phase).spawnedSpecial = false →
        (updateFighter f input attacks ts phase).fighter.specialMeter =
          f.specialMeter)) ∧
    (∀ (jm : JsMath) (now : ℚ) (s : GameState) (rng : Rng),
      s.player.specialMeter ≤ 100 → s.opponent.specialMeter ≤ 100 →
      s.player.specialMeter ≤
          (checkHits jm now s rng).1.state.player.specialMeter ∧
      (checkHits jm now s rng).1.state.player.specialMeter ≤ 100 ∧
      s.opponent.specialMeter ≤
          (checkHits jm now s rng).1.state.opponent.specialMeter ∧
      (checkHits jm now s rng).1.state.opponent.specialMeter ≤ 100 ∧
      s.player.specialMeter ≤
          (checkProjectileHits jm now s rng).1.state.player.specialMeter ∧
      (checkProjectileHits jm now s rng).1.state.player.specialMeter ≤ 100 ∧
      s.opponent.specialMeter ≤
          (checkProjectileHits jm now s rng).1.state.opponent.specialMeter ∧
      (checkProjectileHits jm now s rng).1.state.opponent.specialMeter ≤
        100) ∧
    (∀ (jm : JsMath) (now : ℚ) (s : GameState) (playerInput : InputState)
        (playerAttacks opponentAttacks : AttackSet) (dt : ℚ)
        (gameMode : GameMode) (remoteInput : Option InputState)
        (pt ot : String) (rng : Rng),
      meterInRange s →
      meterInRange (updateGameState jm now s playerInput playerAttacks
        opponentAttacks dt gameMode remoteInput pt ot rng).state) := by
  refine ⟨updateFighter_meter, ?_, ?_⟩
  · intro jm now s rng hp ho
    obtain ⟨a1, a2, a3, a4⟩ := checkHits_meters jm now s rng hp ho
    obtain ⟨b1, b2, b3, b4⟩ := checkProjectileHits_meters jm now s rng hp ho
    exact ⟨a1, a2, a3, a4, b1, b2, b3, b4⟩
  · intro jm now s playerInput playerAttacks opponentAttacks dt gameMode
      remoteInput pt ot rng hin
    by_cases hv : s.gamePhase = GamePhase.victory
    · simp only [updateGameState, if_pos hv]
      exact hin
    · simp only [updateGameState, if_neg hv]
      exact endPhase_meters _ _ _
        (combatPhase_meters _ _ _ _ _
          (fighterPhase_meters _ _ _ _ _ _ _ _ _ _ hin))

/-- C6 witness: one full online-mode tick from a state with the player
at meter 60 (and an idle opponent) keeps both meters inside `[0, 100]`;
and `updateFighter` on that player spends exactly 50. -/
theorem c6_meter_accounting_witness :
    meterInRange (updateGameState jm0 0
      { baseState with
          player := { baseState.player with specialMeter := 60 } }
      { noInput with special := true } testAttacks testAttacks 16
      GameMode.online (some noInput) "W" "W" rngZero).state ∧
    (updateFighter { baseFighter 250 Facing.right with specialMeter := 60 }
      { noInput with special := true } testAttacks 1
        GamePhase.fighting).fighter.specialMeter =
      ({ baseFighter 250 Facing.right with
          specialMeter := 60 } : Fighter).specialMeter - SPECIAL_METER_COST :=
  ⟨c6_meter_accounting.2.2 jm0 0 _ _ testAttacks testAttacks 16
      GameMode.online (some noInput) "W" "W" rngZero
      (by simp only [meterInRange]; with_unfolding_all decide),
    ((c6_meter_accounting.1 _ _ testAttacks 1 GamePhase.fighting).1
      (by with_unfolding_all decide)).2⟩

/-! ## Helper lemmas for the attack-lifecycle claim -/

lemma isAttackActive_of_none (f : Fighter) (h : f.currentAttack = none) :
    isAttackActive f = false := by
  simp [isAttackActive, h]

lemma isAttackActive_of_not_attacking (f : Fighter)
    (h : f.state ≠ FighterState.attacking) : isAttackActive f = false := by
  rcases hopt : f.currentAttack with _ | a <;> simp [isAttackActive, hopt, h]

lemma isAttackActive_of_retired (f : Fighter) (a : Attack)
    (hcur : f.currentAttack = some a)
    (hge : a.startup + a.active ≤ f.stateFrame) :
    isAttackActive f = false := by
  simp only [isAttackActive, hcur]
  split_ifs <;> simp <;> omega

lemma isAttackActive_fields (f g : Fighter) (h1 : f.state = g.state)
    (h2 : f.stateFrame = g.stateFrame)
    (h3 : f.currentAttack = g.currentAttack) :
    isAttackActive f = isAttackActive g := by
  rcases hopt : g.currentAttack with _ | a <;>
    simp [isAttackActive, h1, h2, h3, hopt]

lemma fighterHitstunStep_currentAttack (f : Fighter) (ts : ℚ) :
    (fighterHitstunStep f ts).currentAttack = f.currentAttack := by
  simp only [fighterHitstunStep]; split_ifs <;> rfl

lemma fighterHitstunStep_stateFrame (f : Fighter) (ts : ℚ) :
    (fighterHitstunStep f ts).stateFrame = f.stateFrame := by
  simp only [fighterHitstunStep]; split_ifs <;> rfl

lemma fighterHitstunStep_state (f : Fighter) (ts : ℚ) :
    (fighterHitstunStep f ts).state = f.state ∨
      (fighterHitstunStep f ts).state = FighterState.idle := by
  simp only [fighterHitstunStep]; split_ifs <;> simp

lemma fighterMove_not_attacking (f : Fighter) (input : InputState) (ts : ℚ)
    (h : f.state ≠ FighterState.attacking) :
    (fighterMove f input ts).state ≠ FighterState.attacking := by
  simp only [fighterMove]; split_ifs <;> simp_all

lemma fighterBlock_not_attacking (f : Fighter) (input : InputState)
    (h : f.state ≠ FighterState.attacking) :
    (fighterBlock f input).state ≠ FighterState.attacking := by
  simp only [fighterBlock]; split_ifs <;> simp_all

lemma fighterIdleFallback_not_attacking (f : Fighter) (input : InputState)
    (h : f.state ≠ FighterState.attacking) :
    (fighterIdleFallback f input).state ≠ FighterState.attacking := by
  simp only [fighterIdleFallback]; split_ifs <;> simp_all

lemma fighterMoveBlock_not_attacking (f : Fighter) (input : InputState)
    (ts : ℚ) (h : f.state ≠ FighterState.attacking) :
    (fighterMoveBlock f input ts).state ≠ FighterState.attacking :=
  fighterIdleFallback_not_attacking _ _
    (fighterBlock_not_attacking _ _ (fighterMove_not_attacking _ _ _ h))

lemma fighterPhysicsStep_not_attacking (f : Fighter) (ts : ℚ)
    (h : f.state ≠ FighterState.attacking) :
    (fighterPhysicsStep f ts).state ≠ FighterState.attacking := by
  rcases fighterPhysicsStep_state f ts with he | ⟨_, hi⟩
  · rw [he]; exact h
  · rw [hi]; simp

/-- The input chain either starts a fresh attack instance (state
`attacking` with `stateFrame = 0`) or leaves the fighter out of the
attacking state, provided it was out of it to begin with. -/
lemma fighterInputAttack_shape (f : Fighter) (input : InputState)
    (attacks : AttackSet) (ts : ℚ)
    (h : f.state ≠ FighterState.attacking) :
    ((fighterInputAttack f input attacks ts).1.state =
        FighterState.attacking ∧
      (fighterInputAttack f input attacks ts).1.stateFrame = 0) ∨
    (fighterInputAttack f input attacks ts).1.state ≠
      FighterState.attacking := by
  simp only [fighterInputAttack]
  split_ifs <;> simp_all

/-- The opponent's melee block never touches the player's `stateFrame`
or `currentAttack`, and can change the player's state only to `hit`. -/
lemma meleeOpponentBlock_player_frame (jm : JsMath) (now : ℚ)
    (acc : MeleeAcc) :
    (meleeOpponentBlock jm now acc).state.player.stateFrame =
        acc.state.player.stateFrame ∧
    (meleeOpponentBlock jm now acc).state.player.currentAttack =
        acc.state.player.currentAttack ∧
    ((meleeOpponentBlock jm now acc).state.player.state =
        acc.state.player.state ∨
      (meleeOpponentBlock jm now acc).state.player.state =
        FighterState.hit) := by
  rcases hopt : acc.state.opponent.currentAttack with _ | attack <;>
    simp only [meleeOpponentBlock, hopt] <;> split_ifs <;> simp

/-- On a melee connect (active attack, unstunned target, intersecting
boxes) the player's block retires the attack frame to exactly
`startup + active`, whether the hit lands clean or is blocked. -/
lemma meleePlayerBlock_connect_frame (jm : JsMath) (now : ℚ)
    (acc : MeleeAcc) (a : Attack)
    (hcur : acc.state.player.currentAttack = some a)
    (hact : isAttackActive acc.state.player = true)
    (hstun : acc.state.opponent.hitStun ≤ 0)
    (hint : boxesIntersect (getAttackHitBox acc.state.player a)
      (getFighterHitBox acc.state.opponent) = true) :
    (meleePlayerBlock jm now acc).state.player.stateFrame =
      a.startup + a.active := by
  have hguard : (isAttackActive acc.state.player &&
      decide (acc.state.opponent.hitStun ≤ 0)) = true := by
    simp [hact, hstun]
  simp only [meleePlayerBlock, hguard, if_true, hcur]
  simp only [hint, if_true]
  try split_ifs <;> simp

/-! ## Claim C3: melee hits only in the active window, once per swing -/

set_option maxRecDepth 4000 in
/-- C3. (i) The melee path is willing to register a hit only while
`stateFrame ∈ [startup, startup + active)` of the current attack;
(ii) on the tick a melee attack connects, `checkHits` forcibly retires
the attacker's `stateFrame` to `startup + active`, after which the
attacker is no longer attack-active in the resulting state — so the same
swing cannot register again that tick or later; (iii) the retirement is
permanent for the instance: one `updateFighter` tick on a retired
attacker either stays inactive or begins a *fresh* instance
(`stateFrame = 1`, i.e. a new attack assigned at frame 0 and then
incremented). Together these give at most one registered hit per attack
instance. -/
theorem c3_active_window_single_hit :
    (∀ (f : Fighter) (a : Attack), f.currentAttack = some a →
      isAttackActive f = true →
      a.startup ≤ f.stateFrame ∧ f.stateFrame < a.startup + a.active) ∧
    (∀ (jm : JsMath) (now : ℚ) (s : GameState) (rng : Rng) (a : Attack),
      s.player.currentAttack = some a → isAttackActive s.player = true →
      s.opponent.hitStun ≤ 0 →
      boxesIntersect (getAttackHitBox s.player a)
        (getFighterHitBox s.opponent) = true →
      (checkHits jm now s rng).1.state.player.stateFrame =
          a.startup + a.active ∧
      isAttackActive (checkHits jm now s rng).1.state.player = false) ∧
    (∀ (f : Fighter) (input : InputState) (attacks : AttackSet) (ts : ℚ)
        (phase : GamePhase) (a : Attack),
      f.currentAttack = some a → f.state = FighterState.attacking →
      a.startup + a.active ≤ f.stateFrame → 1 ≤ a.startup + a.active →
      isAttackActive
          (updateFighter f input attacks ts phase).fighter = false ∨
      (updateFighter f input attacks ts phase).fighter.stateFrame = 1) := by
  refine ⟨?_, ?_, ?_⟩
  · intro f a hcur hact
    simp only [isAttackActive, hcur] at hact
    split_ifs at hact <;> simp_all
  · intro jm now s rng a hcur hact hstun hint
    simp only [checkHits]
    set acc0 : MeleeAcc :=
      { state := s, newParticles := [], newPopups := [],
        soundEvents := [], rng := rng } with hacc0
    have hframe1 := meleePlayerBlock_connect_frame jm now acc0 a
      (by simpa [hacc0] using hcur) (by simpa [hacc0] using hact)
      (by simpa [hacc0] using hstun) (by simpa [hacc0] using hint)
    obtain ⟨g1, g2, g3, g4, g5, g6⟩ := meleePlayerBlock_geometry jm now acc0
    obtain ⟨o1, o2, o3⟩ := meleeOpponentBlock_player_frame jm now
      (meleePlayerBlock jm now acc0)
    have e3 := whiffPlayerBlock_state jm now
      (meleeOpponentBlock jm now (meleePlayerBlock jm now acc0))
    have e4 := whiffOpponentBlock_state jm now
      (whiffPlayerBlock jm now
        (meleeOpponentBlock jm now (meleePlayerBlock jm now acc0)))
    have hframe2 : (meleeOpponentBlock jm now
        (meleePlayerBlock jm now acc0)).state.player.stateFrame =
          a.startup + a.active := by rw [o1, hframe1]
    have hcur2 : (meleeOpponentBlock jm now
        (meleePlayerBlock jm now acc0)).state.player.currentAttack =
          some a := by
      rw [o2, g3]; simpa [hacc0] using hcur
    constructor
    · simp only [e4, e3]
      exact hframe2
    · simp only [e4, e3]
      exact isAttackActive_of_retired _ a hcur2 (le_of_eq hframe2.symm)
  · intro f input attacks ts phase a hcur hst hge hpos
    by_cases hph : phase = GamePhase.intro ∨ phase = GamePhase.victory ∨
        phase = GamePhase.ko
    · left
      simp only [updateFighter, if_pos hph]
      exact isAttackActive_of_retired _ a (by simpa using hcur)
        (by simp; omega)
    · simp only [updateFighter, if_neg hph]
      by_cases hca : fighterCanAct (fighterHitstunStep f ts) = true
      · simp only [hca, if_true, fighterActStep]
        by_cases hreset : (fighterHitstunStep f ts).state =
            FighterState.attacking ∧
            (fighterHitstunStep f ts).stateFrame >
              getTotalAttackFrames (fighterHitstunStep f ts).currentAttack
        · -- attack finished: reset to idle, then maybe a fresh instance
          have hr : fighterResetAttack (fighterHitstunStep f ts) =
              { fighterHitstunStep f ts with
                  state := FighterState.idle, currentAttack := none,
                  stateFrame := 0 } := by
            simp only [fighterResetAttack, if_pos hreset]
          rw [hr]
          rcases fighterInputAttack_shape
              { fighterHitstunStep f ts with
                  state := FighterState.idle, currentAttack := none,
                  stateFrame := 0 } input attacks ts (by simp) with
            ⟨hatk, hfr⟩ | hna
          · right
            simp only [fighterPhysicsStep_stateFrame,
              fighterMoveBlock_stateFrame, hfr]
          · left
            exact isAttackActive_of_not_attacking _
              (fighterPhysicsStep_not_attacking _ _
                (fighterMoveBlock_not_attacking _ _ _ hna))
        · -- attack not finished (recovery) — but then the fighter cannot
          -- be in the attacking state with canAct, so it left hit-stun
          -- into idle this tick
          have hr : fighterResetAttack (fighterHitstunStep f ts) =
              fighterHitstunStep f ts := by
            simp only [fighterResetAttack, if_neg hreset]
          rw [hr]
          have hnotatk : (fighterHitstunStep f ts).state ≠
              FighterState.attacking := by
            intro habs
            apply hreset
            refine ⟨habs, ?_⟩
            simp only [fighterCanAct, Bool.and_eq_true, Bool.or_eq_true,
              decide_eq_true_eq] at hca
            rcases hca.2 with h | h
            · exact absurd habs h
            · exact h
          rcases fighterInputAttack_shape (fighterHitstunStep f ts) input
              attacks ts hnotatk with ⟨hatk, hfr⟩ | hna
          · right
            simp only [fighterPhysicsStep_stateFrame,
              fighterMoveBlock_stateFrame, hfr]
          · left
            exact isAttackActive_of_not_attacking _
              (fighterPhysicsStep_not_attacking _ _
                (fighterMoveBlock_not_attacking _ _ _ hna))
      · left
        simp only [hca, if_neg]
        simp only [Bool.false_eq_true, if_false]
        refine isAttackActive_of_retired _ a ?_ ?_
        · simp only [fighterPhysicsStep_currentAttack,
            fighterHitstunStep_currentAttack]
          exact hcur
        · simp only [fighterPhysicsStep_stateFrame,
            fighterHitstunStep_stateFrame]
          omega

/-- C3 witness: the active punch of the C4 melee state sits inside its
window and is retired by the connect; a retired attacker stays inactive
(or starts a fresh instance) after one more tick. -/
theorem c3_active_window_single_hit_witness :
    (punchAttack.startup ≤ c4MeleeState.player.stateFrame ∧
      c4MeleeState.player.stateFrame <
        punchAttack.startup + punchAttack.active) ∧
    (checkHits jm0 0 c4MeleeState rngZero).1.state.player.stateFrame =
      punchAttack.startup + punchAttack.active ∧
    (isAttackActive (updateFighter c8WhiffState.player noInput testAttacks 1
        GamePhase.fighting).fighter = false ∨
      (updateFighter c8WhiffState.player noInput testAttacks 1
        GamePhase.fighting).fighter.stateFrame = 1) :=
  ⟨c3_active_window_single_hit.1 c4MeleeState.player punchAttack rfl
      (by with_unfolding_all decide),
    (c3_active_window_single_hit.2.1 jm0 0 c4MeleeState rngZero punchAttack
      rfl (by with_unfolding_all decide) (by with_unfolding_all decide)
      (by with_unfolding_all decide)).1,
    c3_active_window_single_hit.2.2 c8WhiffState.player noInput testAttacks 1
      GamePhase.fighting punchAttack rfl rfl (by with_unfolding_all decide)
      (by with_unfolding_all decide)⟩

/-! ## Helper relations and lemmas for the determinism claim -/

/-- Agreement on every gameplay-relevant component of the state:
everything except the cosmetic particle, projectile and text-popup
lists. -/
def GameplayEq (s t : GameState) : Prop :=
  s.player = t.player ∧ s.opponent = t.opponent ∧ s.camera = t.camera ∧
    s.gamePhase = t.gamePhase ∧ s.winner = t.winner ∧
    s.slowMo = t.slowMo ∧ s.roundTime = t.roundTime

/-- Two projectiles that agree on every field except the generated id. -/
def ProjSim (p q : Projectile) : Prop :=
  p.x = q.x ∧ p.y = q.y ∧ p.vx = q.vx ∧ p.owner = q.owner ∧
    p.damage = q.damage ∧ p.text = q.text ∧ p.color = q.color ∧
    p.life = q.life

lemma ProjSim.refl (p : Projectile) : ProjSim p p :=
  ⟨rfl, rfl, rfl, rfl, rfl, rfl, rfl, rfl⟩

lemma forall₂_projSim_refl (ps : List Projectile) :
    List.Forall₂ ProjSim ps ps := by
  induction ps with
  | nil => exact List.Forall₂.nil
  | cons p ps ih => exact List.Forall₂.cons (ProjSim.refl p) ih

lemma createProjectile_sim (now1 now2 : ℚ) (f : Fighter) (a : Attack)
    (o : Side) (t c : String) (rng1 rng2 : Rng) :
    ProjSim (createProjectile now1 f a o t c rng1).1
      (createProjectile now2 f a o t c rng2).1 := by
  simp [createProjectile, ProjSim, Rng.next]

lemma updateProjectiles_sim {ps qs : List Projectile}
    (h : List.Forall₂ ProjSim ps qs) :
    List.Forall₂ ProjSim (updateProjectiles ps) (updateProjectiles qs) := by
  induction h with
  | nil => exact List.Forall₂.nil
  | cons hpq hps ih =>
    rename_i p q ps' qs'
    obtain ⟨e1, e2, e3, e4, e5, e6, e7, e8⟩ := hpq
    simp only [updateProjectiles, List.map_cons, List.filter_cons]
    rw [e1, e3, e8]
    split_ifs
    · exact List.Forall₂.cons ⟨by simp [e1, e3], by simp [e2],
        by simp [e3], by simp [e4], by simp [e5], by simp [e6],
        by simp [e7], by simp [e8]⟩ ih
    · exact ih

/-- Accumulator agreement for the projectile-hit fold. -/
def ProjAccSim (a b : ProjHitAcc) : Prop :=
  GameplayEq a.state b.state ∧ a.soundEvents = b.soundEvents

/-- Accumulator agreement for the melee pass. -/
def MeleeAccSim (a b : MeleeAcc) : Prop :=
  GameplayEq a.state b.state ∧ a.soundEvents = b.soundEvents

/-- One projectile-hit step applied to sim-related projectiles and
accumulators produces sim-related accumulators: the gameplay effects
depend only on the id-less projectile data and the shared fighters. -/
lemma projectileHitStep_sim (jm1 jm2 : JsMath) (now1 now2 : ℚ)
    (a b : ProjHitAcc) (p q : Projectile) (hpq : ProjSim p q)
    (hab : ProjAccSim a b) :
    ProjAccSim (projectileHitStep jm1 now1 a p)
      (projectileHitStep jm2 now2 b q) := by
  obtain ⟨⟨hpl, hop, hcam, hph, hwin, hsm, hrt⟩, hsnd⟩ := hab
  obtain ⟨e1, e2, e3, e4, e5, e6, e7, e8⟩ := hpq
  simp only [projectileHitStep]
  have ehb : getProjectileHitBox q = getProjectileHitBox p := by
    simp [getProjectileHitBox, e1, e2]
  rw [ehb, ← e1, ← e2, ← e3, ← e4, ← e5, ← e6, ← e7, ← hpl, ← hop, ← hcam, ← hsnd]
  rcases howner : p.owner with _ | _ <;>
    simp only [] <;>
    split_ifs <;>
    simp [ProjAccSim, GameplayEq, hpl, hop, hcam, hph, hwin, hsm, hrt, hsnd]

lemma forall₂_projSim_append {l₁ l₂ u₁ u₂ : List Projectile}
    (h : List.Forall₂ ProjSim l₁ l₂) (h' : List.Forall₂ ProjSim u₁ u₂) :
    List.Forall₂ ProjSim (l₁ ++ u₁) (l₂ ++ u₂) := by
  induction h with
  | nil => exact h'
  | cons hpq _ ih => exact List.Forall₂.cons hpq ih

/-- A fold of `projectileHitStep` over sim-related projectile lists
starting from sim-related accumulators ends in sim-related
accumulators. -/
lemma projectileFold_sim (jm1 jm2 : JsMath) (now1 now2 : ℚ)
    {ps qs : List Projectile} (hps : List.Forall₂ ProjSim ps qs) :
    ∀ {a b : ProjHitAcc}, ProjAccSim a b →
    ProjAccSim (ps.foldl (projectileHitStep jm1 now1) a)
      (qs.foldl (projectileHitStep jm2 now2) b) := by
  induction hps with
  | nil => intro a b hab; exact hab
  | cons hpq _ ih =>
    intro a b hab
    exact ih (projectileHitStep_sim jm1 jm2 now1 now2 a b _ _ hpq hab)

/-- `checkProjectileHits` run on gameplay-equal states with sim-related
projectile lists yields gameplay-equal states and equal sounds,
whatever the math object, clock and rng stream. -/
lemma checkProjectileHits_sim (jm1 jm2 : JsMath) (now1 now2 : ℚ)
    {s t : GameState} (hst : GameplayEq s t)
    (hproj : List.Forall₂ ProjSim s.projectiles t.projectiles)
    (r1 r2 : Rng) :
    GameplayEq (checkProjectileHits jm1 now1 s r1).1.state
        (checkProjectileHits jm2 now2 t r2).1.state ∧
      (checkProjectileHits jm1 now1 s r1).1.soundEvents =
        (checkProjectileHits jm2 now2 t r2).1.soundEvents := by
  have hinit : ProjAccSim
      { state := s, newParticles := [], newPopups := [], soundEvents := [],
        toRemove := [], rng := r1 }
      { state := t, newParticles := [], newPopups := [], soundEvents := [],
        toRemove := [], rng := r2 } := ⟨hst, rfl⟩
  have hfold := projectileFold_sim jm1 jm2 now1 now2 hproj hinit
  obtain ⟨⟨h1, h2, h3, h4, h5, h6, h7⟩, hsnd⟩ := hfold
  exact ⟨⟨h1, h2, h3, h4, h5, h6, h7⟩, hsnd⟩

/-- The melee player block preserves accumulator agreement: its gameplay
effects and sound events never read the clock, the math object or the
rng stream. -/
lemma meleePlayerBlock_sim (jm1 jm2 : JsMath) (now1 now2 : ℚ)
    {a b : MeleeAcc} (hab : MeleeAccSim a b) :
    MeleeAccSim (meleePlayerBlock jm1 now1 a) (meleePlayerBlock jm2 now2 b) := by
  obtain ⟨⟨hpl, hop, hcam, hph, hwin, hsm, hrt⟩, hsnd⟩ := hab
  simp only [meleePlayerBlock]
  rw [← hpl, ← hop, ← hcam, ← hsnd]
  rcases hatt : a.state.player.currentAttack with _ | attack <;>
    simp only [] <;>
    split_ifs <;>
    simp [MeleeAccSim, GameplayEq, hpl, hop, hcam, hph, hwin, hsm, hrt, hsnd]

/-- The melee opponent block preserves accumulator agreement. -/
lemma meleeOpponentBlock_sim (jm1 jm2 : JsMath) (now1 now2 : ℚ)
    {a b : MeleeAcc} (hab : MeleeAccSim a b) :
    MeleeAccSim (meleeOpponentBlock jm1 now1 a)
      (meleeOpponentBlock jm2 now2 b) := by
  obtain ⟨⟨hpl, hop, hcam, hph, hwin, hsm, hrt⟩, hsnd⟩ := hab
  simp only [meleeOpponentBlock]
  rw [← hpl, ← hop, ← hcam, ← hsnd]
  rcases hatt : a.state.opponent.currentAttack with _ | attack <;>
    simp only [] <;>
    split_ifs <;>
    simp [MeleeAccSim, GameplayEq, hpl, hop, hcam, hph, hwin, hsm, hrt, hsnd]

/-- The player whiff block preserves accumulator agreement. -/
lemma whiffPlayerBlock_sim (jm1 jm2 : JsMath) (now1 now2 : ℚ)
    {a b : MeleeAcc} (hab : MeleeAccSim a b) :
    MeleeAccSim (whiffPlayerBlock jm1 now1 a) (whiffPlayerBlock jm2 now2 b) := by
  obtain ⟨⟨hpl, hop, hcam, hph, hwin, hsm, hrt⟩, hsnd⟩ := hab
  simp only [whiffPlayerBlock]
  rw [← hpl, ← hop, ← hsnd]
  rcases hatt : a.state.player.currentAttack with _ | attack <;>
    simp only [] <;>
    (try split_ifs) <;>
    simp [MeleeAccSim, GameplayEq, hpl, hop, hcam, hph, hwin, hsm, hrt, hsnd]

/-- The opponent whiff block preserves accumulator agreement. -/
lemma whiffOpponentBlock_sim (jm1 jm2 : JsMath) (now1 now2 : ℚ)
    {a b : MeleeAcc} (hab : MeleeAccSim a b) :
    MeleeAccSim (whiffOpponentBlock jm1 now1 a)
      (whiffOpponentBlock jm2 now2 b) := by
  obtain ⟨⟨hpl, hop, hcam, hph, hwin, hsm, hrt⟩, hsnd⟩ := hab
  simp only [whiffOpponentBlock]
  rw [← hpl, ← hop, ← hsnd]
  rcases hatt : a.state.opponent.currentAttack with _ | attack <;>
    simp only [] <;>
    (try split_ifs) <;>
    simp [MeleeAccSim, GameplayEq, hpl, hop, hcam, hph, hwin, hsm, hrt, hsnd]

/-- `checkHits` run on gameplay-equal states yields gameplay-equal
states and equal sound-event lists, whatever the math object, clock and
rng stream. -/
lemma checkHits_sim (jm1 jm2 : JsMath) (now1 now2 : ℚ)
    {s t : GameState} (hst : GameplayEq s t) (r1 r2 : Rng) :
    GameplayEq (checkHits jm1 now1 s r1).1.state
        (checkHits jm2 now2 t r2).1.state ∧
      (checkHits jm1 now1 s r1).1.soundEvents =
        (checkHits jm2 now2 t r2).1.soundEvents := by
  have h0 : MeleeAccSim
      { state := s, newParticles := [], newPopups := [], soundEvents := [],
        rng := r1 }
      { state := t, newParticles := [], newPopups := [], soundEvents := [],
        rng := r2 } := ⟨hst, rfl⟩
  have h4 := whiffOpponentBlock_sim jm1 jm2 now1 now2
    (whiffPlayerBlock_sim jm1 jm2 now1 now2
      (meleeOpponentBlock_sim jm1 jm2 now1 now2
        (meleePlayerBlock_sim jm1 jm2 now1 now2 h0)))
  obtain ⟨⟨h1, h2, h3, hh4, h5, h6, h7⟩, hsnd⟩ := h4
  exact ⟨⟨h1, h2, h3, hh4, h5, h6, h7⟩, hsnd⟩

/-- Absorbing a hit pass's cosmetic output touches only the particle and
popup lists, so it preserves gameplay agreement. -/
lemma absorbCombatResult_gameplay {a b : CombatResult}
    (h : GameplayEq a.state b.state) :
    GameplayEq (absorbCombatResult a) (absorbCombatResult b) := by
  obtain ⟨h1, h2, h3, h4, h5, h6, h7⟩ := h
  exact ⟨h1, h2, h3, h4, h5, h6, h7⟩

/-- The KO check on gameplay-equal states yields gameplay-equal states
and equal sounds, whatever the clock and rng stream. -/
lemma checkKO_sim (now1 now2 : ℚ) {s t : GameState} (hst : GameplayEq s t)
    (r1 r2 : Rng) :
    GameplayEq (checkKO now1 s r1).1 (checkKO now2 t r2).1 ∧
      (checkKO now1 s r1).2.1 = (checkKO now2 t r2).2.1 := by
  obtain ⟨hpl, hop, hcam, hph, hwin, hsm, hrt⟩ := hst
  simp only [checkKO]
  rw [← hpl, ← hop, ← hcam, ← hph]
  split_ifs <;>
    simp [GameplayEq, hpl, hop, hcam, hph, hwin, hsm, hrt]

/-- The KO-to-victory transition on gameplay-equal states yields
gameplay-equal states and equal sounds. -/
lemma koToVictory_sim {s t : GameState} (hst : GameplayEq s t) :
    GameplayEq (koToVictory s).1 (koToVictory t).1 ∧
      (koToVictory s).2 = (koToVictory t).2 := by
  obtain ⟨hpl, hop, hcam, hph, hwin, hsm, hrt⟩ := hst
  simp only [koToVictory]
  rw [← hph, ← hsm]
  split_ifs <;>
    simp [GameplayEq, hpl, hop, hcam, hph, hwin, hsm, hrt]

/-- The end phase (KO check, victory transition, cosmetic updates) on
gameplay-equal states yields gameplay-equal states and equal sounds. -/
lemma endPhase_sim (now1 now2 : ℚ) {s t : GameState} (hst : GameplayEq s t)
    (r1 r2 : Rng) :
    GameplayEq (endPhase now1 s r1).1 (endPhase now2 t r2).1 ∧
      (endPhase now1 s r1).2 = (endPhase now2 t r2).2 := by
  have hko := checkKO_sim now1 now2 hst r1 r2
  have hvic := koToVictory_sim hko.1
  obtain ⟨⟨vpl, vop, vcam, vph, vwin, vsm, vrt⟩, vsnd⟩ := hvic
  simp only [endPhase]
  exact ⟨⟨vpl, vop, by rw [vcam, vpl, vop], vph, vwin, vsm, vrt⟩,
    by rw [hko.2, vsnd]⟩

/-- The player special spawn emits sim-related projectiles and equal
sounds, whatever the clock and rng stream. -/
lemma spawnPlayerSpecial_sim (now1 now2 : ℚ) (s : GameState)
    (pa : AttackSet) (t : String) (b : Bool) (r1 r2 : Rng) :
    List.Forall₂ ProjSim (spawnPlayerSpecial now1 s pa t b r1).1
        (spawnPlayerSpecial now2 s pa t b r2).1 ∧
      (spawnPlayerSpecial now1 s pa t b r1).2.1 =
        (spawnPlayerSpecial now2 s pa t b r2).2.1 := by
  cases b <;> simp [spawnPlayerSpecial]
  exact createProjectile_sim now1 now2 s.player pa.special Side.player t
    s.player.color r1 r2

/-- The opponent special spawn emits sim-related projectiles and equal
sounds, whatever the clock and rng stream. -/
lemma spawnOpponentSpecial_sim (now1 now2 : ℚ) (s : GameState)
    (oa : AttackSet) (t : String) (b : Bool) (r1 r2 : Rng) :
    List.Forall₂ ProjSim (spawnOpponentSpecial now1 s oa t b r1).1
        (spawnOpponentSpecial now2 s oa t b r2).1 ∧
      (spawnOpponentSpecial now1 s oa t b r1).2.1 =
        (spawnOpponentSpecial now2 s oa t b r2).2.1 := by
  cases b <;> simp [spawnOpponentSpecial]
  exact createProjectile_sim now1 now2 s.opponent oa.special Side.opponent t
    s.opponent.color r1 r2

/-- In online mode with a supplied remote input, the fighter phase's
resulting state does not depend on the clock or the rng stream at all. -/
lemma fighterPhase_state_eq (now1 now2 : ℚ) (state : GameState)
    (inp : InputState) (pa oa : AttackSet) (ri : InputState) (t1 t2 : String)
    (r1 r2 : Rng) :
    (fighterPhase now1 state inp pa oa GameMode.online (some ri) t1 t2 r1).1 =
      (fighterPhase now2 state inp pa oa GameMode.online (some ri) t1 t2 r2).1 :=
  rfl

/-- In online mode with a supplied remote input, the fighter phase's
spawn sounds do not depend on the clock or the rng stream. -/
lemma fighterPhase_sounds_eq (now1 now2 : ℚ) (state : GameState)
    (inp : InputState) (pa oa : AttackSet) (ri : InputState) (t1 t2 : String)
    (r1 r2 : Rng) :
    (fighterPhase now1 state inp pa oa GameMode.online (some ri) t1 t2
        r1).2.2.1 =
      (fighterPhase now2 state inp pa oa GameMode.online (some ri) t1 t2
        r2).2.2.1 := by
  simp only [fighterPhase, chooseOpponentInput]
  rw [(spawnPlayerSpecial_sim now1 now2 _ _ _ _ r1 r2).2]
  rw [(spawnOpponentSpecial_sim now1 now2 _ _ _ _ _ _).2]

/-- In online mode with a supplied remote input, the fighter phase's
spawned projectiles are sim-related across clocks and rng streams. -/
lemma fighterPhase_projs_sim (now1 now2 : ℚ) (state : GameState)
    (inp : InputState) (pa oa : AttackSet) (ri : InputState) (t1 t2 : String)
    (r1 r2 : Rng) :
    List.Forall₂ ProjSim
      (fighterPhase now1 state inp pa oa GameMode.online (some ri) t1 t2
        r1).2.1
      (fighterPhase now2 state inp pa oa GameMode.online (some ri) t1 t2
        r2).2.1 := by
  simp only [fighterPhase, chooseOpponentInput]
  exact forall₂_projSim_append
    (spawnPlayerSpecial_sim now1 now2 _ _ _ _ r1 r2).1
    (spawnOpponentSpecial_sim now1 now2 _ _ _ _ _ _).1

/-- The combat phase run on one state with sim-related incoming
projectile lists yields gameplay-equal states and equal sounds,
whatever the math object, clock and rng stream. -/
lemma combatPhase_sim (jm1 jm2 : JsMath) (now1 now2 : ℚ) (s : GameState)
    {np1 np2 : List Projectile} (hnp : List.Forall₂ ProjSim np1 np2)
    (r1 r2 : Rng) :
    GameplayEq (combatPhase jm1 now1 s np1 r1).1
        (combatPhase jm2 now2 s np2 r2).1 ∧
      (combatPhase jm1 now1 s np1 r1).2.1 =
        (combatPhase jm2 now2 s np2 r2).2.1 := by
  have h5 : GameplayEq
      { faceEachOther s with
          projectiles :=
            updateProjectiles ((faceEachOther s).projectiles ++ np1) }
      { faceEachOther s with
          projectiles :=
            updateProjectiles ((faceEachOther s).projectiles ++ np2) } :=
    ⟨rfl, rfl, rfl, rfl, rfl, rfl, rfl⟩
  have h5proj : List.Forall₂ ProjSim
      (updateProjectiles ((faceEachOther s).projectiles ++ np1))
      (updateProjectiles ((faceEachOther s).projectiles ++ np2)) :=
    updateProjectiles_sim
      (forall₂_projSim_append (forall₂_projSim_refl _) hnp)
  have hph := checkProjectileHits_sim jm1 jm2 now1 now2 h5 h5proj r1 r2
  have hmh := checkHits_sim jm1 jm2 now1 now2
    (absorbCombatResult_gameplay hph.1)
    (checkProjectileHits jm1 now1
      { faceEachOther s with
          projectiles :=
            updateProjectiles ((faceEachOther s).projectiles ++ np1) } r1).2
    (checkProjectileHits jm2 now2
      { faceEachOther s with
          projectiles :=
            updateProjectiles ((faceEachOther s).projectiles ++ np2) } r2).2
  simp only [combatPhase]
  exact ⟨absorbCombatResult_gameplay hmh.1, by rw [hph.2, hmh.2]⟩

/-- A fighting state in which the player is already at 0 health, so the
tick reaches the KO block and creates a text popup (whose id embeds the
`Math.random()` draw). -/
def koState : GameState :=
  { baseState with player := { baseState.player with health := 0 } }

set_option maxRecDepth 10000 in
/-- C1: the spec claims two runs of `updateGameState` from equal states
with equal inputs, attack sets, time step and game mode are bit-for-bit
equal in resulting state and sounds, independent of wall-clock time and
randomness. False for the full state: entity ids of spawned popups and
particles embed `Date.now()` and `Math.random()` draws, and hit/whiff
particle kinematics use further draws, so two runs that differ only in
the `Math.random()` stream produce different `GameState`s (here the KO
popup's id differs). -/
theorem c1_determinism_counterexample :
    updateGameState jm0 0 koState noInput testAttacks testAttacks 16
        GameMode.online (some noInput) "S" "S" rngZero ≠
      updateGameState jm0 0 koState noInput testAttacks testAttacks 16
        GameMode.online (some noInput) "S" "S" rngHalf := by
  with_unfolding_all decide

/-- C1 (amended): in online mode with a supplied remote input, one tick
of `updateGameState` is deterministic in everything gameplay-relevant:
two runs from the same state with the same inputs, attack sets and time
step — but arbitrary host math functions, wall-clock readings and
`Math.random()` streams — agree exactly on both fighters, the camera,
the game phase, the winner, the slow-motion factor, the round time and
the emitted sound-event list. Only the cosmetic particle, projectile
and text-popup lists (whose ids embed the clock and the rng draws) may
differ, so an authoritative-host netcode layer stays in sync on the
authoritative fields. -/
theorem c1_determinism_amended (jm1 jm2 : JsMath) (now1 now2 : ℚ)
    (state : GameState) (inp : InputState) (pa oa : AttackSet) (dt : ℚ)
    (ri : InputState) (t1 t2 : String) (r1 r2 : Rng) :
    GameplayEq
      (updateGameState jm1 now1 state inp pa oa dt GameMode.online (some ri)
        t1 t2 r1).state
      (updateGameState jm2 now2 state inp pa oa dt GameMode.online (some ri)
        t1 t2 r2).state ∧
    (updateGameState jm1 now1 state inp pa oa dt GameMode.online (some ri)
        t1 t2 r1).soundEvents =
      (updateGameState jm2 now2 state inp pa oa dt GameMode.online (some ri)
        t1 t2 r2).soundEvents := by
  by_cases hv : state.gamePhase = GamePhase.victory
  · simp only [updateGameState, if_pos hv]
    exact ⟨⟨rfl, rfl, rfl, rfl, rfl, rfl, rfl⟩, trivial⟩
  · have hfst := fighterPhase_state_eq now1 now2 state inp pa oa ri t1 t2 r1 r2
    have hfpr := fighterPhase_projs_sim now1 now2 state inp pa oa ri t1 t2 r1 r2
    have hfsn := fighterPhase_sounds_eq now1 now2 state inp pa oa ri t1 t2 r1 r2
    simp only [updateGameState, if_neg hv]
    rw [← hfst]
    have hcp := combatPhase_sim jm1 jm2 now1 now2
      (fighterPhase now1 state inp pa oa GameMode.online (some ri) t1 t2 r1).1
      hfpr
      (fighterPhase now1 state inp pa oa GameMode.online (some ri) t1 t2
        r1).2.2.2
      (fighterPhase now2 state inp pa oa GameMode.online (some ri) t1 t2
        r2).2.2.2
    have hep := endPhase_sim now1 now2 hcp.1
      (combatPhase jm1 now1
        (fighterPhase now1 state inp pa oa GameMode.online (some ri) t1 t2
          r1).1
        (fighterPhase now1 state inp pa oa GameMode.online (some ri) t1 t2
          r1).2.1
        (fighterPhase now1 state inp pa oa GameMode.online (some ri) t1 t2
          r1).2.2.2).2.2
      (combatPhase jm2 now2
        (fighterPhase now1 state inp pa oa GameMode.online (some ri) t1 t2
          r1).1
        (fighterPhase now2 state inp pa oa GameMode.online (some ri) t1 t2
          r2).2.1
        (fighterPhase now2 state inp pa oa GameMode.online (some ri) t1 t2
          r2).2.2.2).2.2
    exact ⟨hep.1, by rw [hfsn, hcp.2, hep.2]⟩
